import Mathlib

/-!
# Verification of the KEKCONVERTERS box-geometry and IR layer

A shallow embedding, in Lean 4, of the parts of the KEKCONVERTERS
repository that the verified properties are about:

* `src/conversion/entities.py` — the `KEKBox` value type and its
  Darknet / PASCAL VOC / MS COCO coordinate conversions;
* `src/conversion/converters/pascalvoc.py` — the XML-subtree-to-map
  conversion `_xml2dict`, the object decoders `_get_name` /
  `_get_kek_box`, the object loop of `pascalvoc2kek`, and the
  `append_data_from_dict_to_xml` encoder helper of `kek2pascalvoc`;
* `src/conversion/converters/mscoco.py` — the category lookup of
  `coco_annotations2kek_objects`, the encoders `kek2mscoco_simple` /
  `kek2mscoco_hard`, and the category accumulation of
  `save_categories` / `create_mscoco_big_dict`;
* `src/conversion/converters/darknet.py` — the label-line decoding of
  `darknet2kek` and the encoder `kek2darknet`.

Modelling conventions:

* Python's exact `Decimal` arithmetic is modelled by `ℚ` (the source
  switches to `decimal.Decimal` precisely to avoid binary-float drift;
  the default 28-significant-digit context rounding is far below every
  tolerance considered here and is modelled as exact).  The one place a
  binary float sits between two `Decimal` computations — `to_darknet_box`
  returns `float()`s that `from_darknet` re-parses via `str` → `Decimal`
  in the round trip — is modelled explicitly: `floatRealizes` quantifies
  over every box within a per-component bound `δ` of the exact
  fractions, and the round-trip theorems hold for all of them, because
  the `int()` truncation there sits exactly on an integer boundary and a
  float error of either sign changes its result.
* Python's `int()` truncation toward zero on a number is `pyTrunc`.
* Python dictionaries are insertion-ordered association lists; the
  statement `d[k] = v` / `d.update({k: v})` is `pyUpdate` (an existing
  key keeps its position and gets the new value, a new key is appended).
* In-place mutation of a `KEKImage` reached through aliased
  `additional_data` references is made explicit by state passing: each
  encoder returns its output *together with* the post-state of the
  `KEKImage` it was given.
* Python exceptions are `Except PyErr`; distinct `raise` sites get
  distinct `PyErr` values.
-/

/-- Python's `int()` applied to an exact decimal value: truncation toward
zero. -/
def pyTrunc (q : ℚ) : ℤ := if 0 ≤ q then ⌊q⌋ else ⌈q⌉

/-- Image shape as unpacked by `entities.py` (`image_width, image_height,
_ = image_shape`): width, height and channel depth in pixels. -/
structure ImageShape where
  width : ℤ
  height : ℤ
  depth : ℤ
deriving DecidableEq

/-- A Darknet box: four fractions of the image dimensions
`(center_x, center_y, box_width, box_height)`.  The source passes these
around as floats or as a space-separated string and converts them to
`Decimal`; both are modelled as exact rationals. -/
structure DarknetBox where
  center_x : ℚ
  center_y : ℚ
  box_width : ℚ
  box_height : ℚ
deriving DecidableEq

/-- Embeds `entities.KEKBox`: `[top left x, top left y, bottom right x, bottom
right y]` in absolute pixel space.  Python never forces the coordinates
to be integers (`from_coco` stores whatever numbers the JSON carried),
so the fields are rationals; the Darknet and VOC constructors only ever
store integers in them. -/
structure KEKBox where
  top_left_x : ℚ
  top_left_y : ℚ
  bottom_right_x : ℚ
  bottom_right_y : ℚ
deriving DecidableEq

/-- The four scale-and-truncate corner values computed by the `convert`
closure inside `entities.KEKBox.from_darknet`, before the clamping
`if`s. -/
structure RawCorners where
  tlx : ℤ
  tly : ℤ
  brx : ℤ
  bry : ℤ
deriving DecidableEq

/-- The unclamped corners of `entities.KEKBox.from_darknet`:
`int((center ∓ size / 2) * image_dimension)` for each coordinate. -/
def KEKBox.fromDarknetRaw (box : DarknetBox) (image_shape : ImageShape) :
    RawCorners :=
  { tlx := pyTrunc ((box.center_x - box.box_width / 2) * image_shape.width)
    tly := pyTrunc ((box.center_y - box.box_height / 2) * image_shape.height)
    brx := pyTrunc ((box.center_x + box.box_width / 2) * image_shape.width)
    bry := pyTrunc ((box.center_y + box.box_height / 2) * image_shape.height) }

/-- Embeds `entities.KEKBox.from_darknet`: scale each coordinate by the image
dimension, truncate with `int()`, then clamp: a negative top-left
coordinate becomes `0`, a bottom-right coordinate larger than the image
dimension becomes the image dimension. -/
def KEKBox.from_darknet (box : DarknetBox) (image_shape : ImageShape) :
    KEKBox :=
  let raw := KEKBox.fromDarknetRaw box image_shape
  { top_left_x := if raw.tlx < 0 then 0 else raw.tlx
    top_left_y := if raw.tly < 0 then 0 else raw.tly
    bottom_right_x :=
      if raw.brx > image_shape.width then image_shape.width else raw.brx
    bottom_right_y :=
      if raw.bry > image_shape.height then image_shape.height else raw.bry }

/-- Embeds `entities.KEKBox.to_darknet_box`:
`width_scale_factor = 1 / image_width`, and the center coordinates are
computed as `scale * ((top_left + bottom_right) / 2 - 1)` — note the
`- 1` inside the parenthesis in the source.  The source's final
`float(center_x), float(center_y), float(box_width), float(box_height)`
conversion (entities.py line 100) is not part of this definition: these
are the exact `Decimal` values the conversion rounds.  Where that
rounding matters — feeding the result back into `from_darknet`, whose
`str` → `Decimal` re-parse sees the doubles, not the exact values — it
is modelled explicitly by `floatRealizes` below. -/
def KEKBox.to_darknet_box (box : KEKBox) (image_shape : ImageShape) :
    DarknetBox :=
  let width_scale_factor : ℚ := 1 / image_shape.width
  let height_scale_factor : ℚ := 1 / image_shape.height
  { center_x :=
      width_scale_factor * ((box.top_left_x + box.bottom_right_x) / 2 - 1)
    center_y :=
      height_scale_factor * ((box.top_left_y + box.bottom_right_y) / 2 - 1)
    box_width := width_scale_factor * (box.bottom_right_x - box.top_left_x)
    box_height :=
      height_scale_factor * (box.bottom_right_y - box.top_left_y) }

/-- Embeds `entities.KEKBox.from_voc`: the identity on the four coordinates. -/
def KEKBox.from_voc (box : ℚ × ℚ × ℚ × ℚ) : KEKBox :=
  ⟨box.1, box.2.1, box.2.2.1, box.2.2.2⟩

/-- Embeds `entities.KEKBox.to_voc_box`. -/
def KEKBox.to_voc_box (box : KEKBox) : ℚ × ℚ × ℚ × ℚ :=
  (box.top_left_x, box.top_left_y, box.bottom_right_x, box.bottom_right_y)

/-- Embeds `entities.KEKBox.from_coco`: `(x, y, w, h) ↦ (x, y, x + w, y + h)`. -/
def KEKBox.from_coco (box : ℚ × ℚ × ℚ × ℚ) : KEKBox :=
  ⟨box.1, box.2.1, box.1 + box.2.2.1, box.2.1 + box.2.2.2⟩

/-- Embeds `entities.KEKBox.to_coco_box`. -/
def KEKBox.to_coco_box (box : KEKBox) : ℚ × ℚ × ℚ × ℚ :=
  (box.top_left_x, box.top_left_y, box.bottom_right_x - box.top_left_x,
   box.bottom_right_y - box.top_left_y)

/-- The `float()` conversion ending `to_darknet_box` and the
`str` → `Decimal` re-parse opening `from_darknet`, made explicit for the
round trip `KEKBox.from_darknet(B.to_darknet_box(S), S)` of §8 of the
specification: the box `from_darknet` actually receives is not the exact
fractions `b` but some realization `b'` whose components each differ
from them by at most `δ`.  A binary64 double and its `str` form convert
back and forth exactly, so the whole re-encoding is one rounding of each
exact `Decimal` fraction to binary64 (relative error `2⁻⁵³`) plus the
28-significant-digit `Decimal` context rounding — for fractions of
magnitude up to a few units, any `δ` of about `2⁻⁵⁰` bounds it with room
to spare.  Theorems quantify over every such realization, so they hold
for whatever rounding the program's floats actually perform. -/
def floatRealizes (b' b : DarknetBox) (δ : ℚ) : Prop :=
  |b'.center_x - b.center_x| ≤ δ ∧ |b'.center_y - b.center_y| ≤ δ ∧
  |b'.box_width - b.box_width| ≤ δ ∧ |b'.box_height - b.box_height| ≤ δ

instance (b' b : DarknetBox) (δ : ℚ) : Decidable (floatRealizes b' b δ) := by
  unfold floatRealizes; infer_instance

/-- The clamping branch of `from_darknet` fires: at least one of the four
`if`s in the source replaces its scaled-and-truncated value. -/
def clampFires (box : DarknetBox) (image_shape : ImageShape) : Prop :=
  let raw := KEKBox.fromDarknetRaw box image_shape
  raw.tlx < 0 ∨ raw.tly < 0 ∨ raw.brx > image_shape.width ∨
    raw.bry > image_shape.height

instance (box : DarknetBox) (image_shape : ImageShape) :
    Decidable (clampFires box image_shape) := by
  unfold clampFires; infer_instance

/-- Component-wise distance of two `KEKBox`es measured on the normalized
scale (x-coordinates as fractions of the image width, y-coordinates of
the image height), each within `0.01`. -/
def withinDarknetTol (b b' : KEKBox) (image_shape : ImageShape) : Prop :=
  |b'.top_left_x - b.top_left_x| / image_shape.width ≤ 1 / 100 ∧
  |b'.top_left_y - b.top_left_y| / image_shape.height ≤ 1 / 100 ∧
  |b'.bottom_right_x - b.bottom_right_x| / image_shape.width ≤ 1 / 100 ∧
  |b'.bottom_right_y - b.bottom_right_y| / image_shape.height ≤ 1 / 100

instance (b b' : KEKBox) (image_shape : ImageShape) :
    Decidable (withinDarknetTol b b' image_shape) := by
  unfold withinDarknetTol; infer_instance

/-! ## Python values, dictionaries and exceptions -/

/-- A Python dictionary key as used by this program: the class mappers and
category tables are keyed by ints or strings, and `1 == "1"` is false in
Python, so the two kinds never collide. -/
inductive PyKey where
  | int : ℤ → PyKey
  | str : String → PyKey
deriving DecidableEq

/-- A JSON-like Python value, the type of everything the converters store
in `additional_data` dictionaries and annotation records.  Python floats
are modelled as exact rationals. -/
inductive PyVal where
  | null : PyVal
  | bool : Bool → PyVal
  | int : ℤ → PyVal
  | float : ℚ → PyVal
  | str : String → PyVal
  | list : List PyVal → PyVal
  | dict : List (String × PyVal) → PyVal

/-- The Python exceptions raised by the embedded code. -/
inductive PyErr where
  | valueError : String → PyErr
  | keyError : PyErr
  | typeError : PyErr
deriving DecidableEq

/-- A Python dictionary: an insertion-ordered association list with
unique keys, always built through `pyUpdate` below. -/
abbrev PyDict (K V : Type) := List (K × V)

/-- Python's `d[k] = v` / `d.update({k: v})`: an existing key keeps its
position in the insertion order and receives the new value, a new key is
appended at the end. -/
def pyUpdate {K V : Type} [DecidableEq K] (d : PyDict K V) (k : K) (v : V) :
    PyDict K V :=
  if k ∈ d.map Prod.fst then
    d.map (fun p => if p.1 = k then (k, v) else p)
  else
    d ++ [(k, v)]

/-- Python's `d[k]` as a partial lookup (`none` models a `KeyError`). -/
def pyGet? {K V : Type} [DecidableEq K] (d : PyDict K V) (k : K) : Option V :=
  match d with
  | [] => none
  | (k', v) :: rest => if k' = k then some v else pyGet? rest k

/-! ## The intermediate representation (`entities.py`) -/

/-- Embeds `entities.KEKObject`.  `class_name` is a `PyVal` because the MS COCO
decoder stores whatever `category['name']` holds. -/
structure KEKObject where
  class_id : ℤ
  class_name : PyVal
  kek_box : KEKBox
  additional_data : PyDict String PyVal

/-- Embeds `entities.KEKImage`. -/
structure KEKImage where
  id_ : ℤ
  filename : String
  shape : ImageShape
  kek_objects : List KEKObject
  additional_data : PyDict String PyVal

/-! ## Darknet encode (`converters/darknet.py`) -/

/-- Embeds `darknet.kek2darknet`: one `"<class_id> <cx> <cy> <w> <h>\n"` record
per object, in object order, with the box from `to_darknet_box` on the
image's shape.  The float-to-string formatting of the emitted line is
not modelled: each line is kept as the class id paired with the four
Darknet fractions.  The function only reads the `KEKImage`; the
post-state returned alongside the output is therefore the input
itself. -/
def kek2darknet (kek_image : KEKImage) : List (ℤ × DarknetBox) × KEKImage :=
  (kek_image.kek_objects.map
    (fun kek_object =>
      (kek_object.class_id, kek_object.kek_box.to_darknet_box kek_image.shape)),
   kek_image)

/-! ## PASCAL VOC encode (`converters/pascalvoc.py`, `kek2pascalvoc`) -/

/-- An `xml.etree.ElementTree` element being built by the encoder: a tag,
an optional `.text` payload (`root.text = value` can store any Python
value, hence `PyVal`), and the ordered list of children. -/
inductive Elem where
  | mk : String → Option PyVal → List Elem → Elem

/-- The element's tag. -/
def Elem.tag : Elem → String
  | .mk t _ _ => t

/-- The element's `.text`. -/
def Elem.text : Elem → Option PyVal
  | .mk _ x _ => x

/-- The element's children, in document order. -/
def Elem.children : Elem → List Elem
  | .mk _ _ c => c

/-- Python's `key.startswith(TEXT_MARK)` with `TEXT_MARK = '#'`: whether the first
character is `#`. -/
def startsWithHash (s : String) : Bool :=
  match s.data with
  | '#' :: _ => true
  | _ => false

mutual

/-- The `append_data_from_dict_to_xml` closure defined inside
`kek2pascalvoc` (pascalvoc.py lines 173–193).  A key starting with `#`
sets the parent's own text; a `str` value becomes a child element with
that text; a `dict` becomes a child element whose items are appended
recursively; a `list` repeats the same key for every member.  Any other
value — in particular `int` and `float` scalars — matches none of the
`isinstance` branches and the pair is silently dropped. -/
def append_data_from_dict_to_xml (key : String) (value : PyVal)
    (root : Elem) : Elem :=
  if startsWithHash key then
    .mk root.tag (some value) root.children
  else
    match value with
    | .str _ =>
        .mk root.tag root.text (root.children ++ [.mk key (some value) []])
    | .dict kvs =>
        .mk root.tag root.text
          (root.children ++ [appendDictItems kvs (.mk key none [])])
    | .list vs => appendListItems key vs root
    | _ => root

/-- The loop `for sub_key, sub_value in value.items(): append_data_from_dict_to_xml
(sub_key, sub_value, sub_root)`. -/
def appendDictItems (kvs : List (String × PyVal)) (root : Elem) : Elem :=
  match kvs with
  | [] => root
  | (k, v) :: rest => appendDictItems rest (append_data_from_dict_to_xml k v root)

/-- The loop `for element in value: append_data_from_dict_to_xml(key, element,
root)`. -/
def appendListItems (key : String) (vs : List PyVal) (root : Elem) : Elem :=
  match vs with
  | [] => root
  | v :: rest => appendListItems key rest (append_data_from_dict_to_xml key v root)

end

/-- Embeds `pascalvoc.kek2pascalvoc`: builds the `<annotation>` tree —
`<filename>`, `<size>` with the three dimensions, the image's
`additional_data`, then one `<object>` block per object with `<name>`,
`<bndbox>` (the four `to_voc_box` coordinates) and the object's
`additional_data`.  The pretty-printed serialization of the finished tree
is not modelled; the tree itself is returned.  The function only reads
the `KEKImage`, so the returned post-state is the input itself. -/
def kek2pascalvoc (kek_image : KEKImage) : Elem × KEKImage :=
  let size : Elem :=
    .mk "size" none
      [.mk "width" (some (.str (toString kek_image.shape.width))) [],
       .mk "height" (some (.str (toString kek_image.shape.height))) [],
       .mk "depth" (some (.str (toString kek_image.shape.depth))) []]
  let base : Elem :=
    .mk "annotation" none
      [.mk "filename" (some (.str kek_image.filename)) [], size]
  let with_image_data :=
    kek_image.additional_data.foldl
      (fun root kv => append_data_from_dict_to_xml kv.1 kv.2 root) base
  let final :=
    kek_image.kek_objects.foldl
      (fun root kek_object =>
        let bndbox : Elem :=
          .mk "bndbox" none
            [.mk "xmin" (some (.str (toString kek_object.kek_box.top_left_x))) [],
             .mk "ymin" (some (.str (toString kek_object.kek_box.top_left_y))) [],
             .mk "xmax" (some (.str (toString kek_object.kek_box.bottom_right_x))) [],
             .mk "ymax" (some (.str (toString kek_object.kek_box.bottom_right_y))) []]
        let object0 : Elem :=
          .mk "object" none
            [.mk "name" (some kek_object.class_name) [], bndbox]
        let object1 :=
          kek_object.additional_data.foldl
            (fun o kv => append_data_from_dict_to_xml kv.1 kv.2 o) object0
        .mk root.tag root.text (root.children ++ [object1]))
      with_image_data
  (final, kek_image)

/-! ## MS COCO encode (`converters/mscoco.py`) -/

/-- The `'bbox': kek_object.kek_box.to_coco_box()` value: the four
`(x, y, width, height)` numbers of `to_coco_box` as a Python sequence. -/
def cocoBoxVal (box : KEKBox) : PyVal :=
  .list [.float box.to_coco_box.1, .float box.to_coco_box.2.1,
         .float box.to_coco_box.2.2.1, .float box.to_coco_box.2.2.2]

/-- An MS COCO category record. -/
abbrev Category := PyDict String PyVal

/-- The in-place update `kek2mscoco_simple` / `kek2mscoco_hard` perform
on each object's `additional_data` dictionary (`ms_coco_metadata` is an
alias of it): `category_id` and `bbox` are inserted. -/
def mscocoObjectMetadata (kek_object : KEKObject) : PyDict String PyVal :=
  pyUpdate
    (pyUpdate kek_object.additional_data "category_id"
      (.int (kek_object.class_id + 1)))
    "bbox" (cocoBoxVal kek_object.kek_box)

/-- The category record `kek2mscoco_simple` emits for one object
(`category_id` key, `name`, and `supercategory` when the object's
additional data carries one). -/
def mscocoSimpleCategoryDict (kek_object : KEKObject) : Category :=
  [("category_id", PyVal.int (kek_object.class_id + 1)),
   ("name", kek_object.class_name)] ++
    (match pyGet? kek_object.additional_data "supercategory" with
     | some supercategory => [("supercategory", supercategory)]
     | none => [])

/-- The category record `kek2mscoco_hard` emits for one object (`id` key
instead of `category_id`). -/
def mscocoHardCategoryDict (kek_object : KEKObject) : Category :=
  [("id", PyVal.int (kek_object.class_id + 1)),
   ("name", kek_object.class_name)] ++
    (match pyGet? kek_object.additional_data "supercategory" with
     | some supercategory => [("supercategory", supercategory)]
     | none => [])

/-- The pair `(json_file, categories)` returned by
`kek2mscoco_simple`. -/
structure MSCocoSimpleOut where
  image : PyDict String PyVal
  annot : List (PyDict String PyVal)
  categories : PyDict ℤ Category

/-- Embeds `mscoco.kek2mscoco_simple`.  The source aliases the image's and each
object's `additional_data` dictionaries and mutates them in place
(`image_dict = kek_image.additional_data; image_dict.update(...)`,
`ms_coco_metadata = kek_object.additional_data;
ms_coco_metadata.update(...)`), so the `KEKImage` after the call — the
second component — carries the enlarged dictionaries.  Update order
follows the source: `file_name`, `width`, `height`, `id` on the image;
`category_id`, `bbox` on each object.  The `supercategory` fallback is
looked up in the object's (already updated) dictionary, as in the
source. -/
def kek2mscoco_simple (kek_image : KEKImage) : MSCocoSimpleOut × KEKImage :=
  let image_dict :=
    pyUpdate
      (pyUpdate
        (pyUpdate
          (pyUpdate kek_image.additional_data "file_name"
            (.str kek_image.filename))
          "width" (.int kek_image.shape.width))
        "height" (.int kek_image.shape.height))
      "id" (.int kek_image.id_)
  let updated_objects :=
    kek_image.kek_objects.map
      (fun kek_object =>
        { kek_object with additional_data := mscocoObjectMetadata kek_object })
  let annotations := updated_objects.map (·.additional_data)
  let categories :=
    updated_objects.foldl
      (fun cats kek_object =>
        pyUpdate cats (kek_object.class_id + 1)
          (mscocoSimpleCategoryDict kek_object))
      []
  (⟨image_dict, annotations, categories⟩,
   { kek_image with
       additional_data := image_dict
       kek_objects := updated_objects })

/-- The triple `(image_dict, annotations, categories)` returned by
`kek2mscoco_hard`. -/
structure MSCocoHardOut where
  image_dict : PyDict String PyVal
  annotations : List (PyDict String PyVal)
  categories : PyDict ℤ Category

/-- Embeds `mscoco.kek2mscoco_hard`: as `kek2mscoco_simple` but the image keys
are inserted in the order `id`, `file_name`, `width`, `height`, and each
category record is keyed `id`.  It mutates the aliased dictionaries the
same way, so the post-state `KEKImage` carries the enlarged
dictionaries. -/
def kek2mscoco_hard (kek_format : KEKImage) : MSCocoHardOut × KEKImage :=
  let image_dict :=
    pyUpdate
      (pyUpdate
        (pyUpdate
          (pyUpdate kek_format.additional_data "id" (.int kek_format.id_))
          "file_name" (.str kek_format.filename))
        "width" (.int kek_format.shape.width))
      "height" (.int kek_format.shape.height)
  let updated_objects :=
    kek_format.kek_objects.map
      (fun kek_object =>
        { kek_object with additional_data := mscocoObjectMetadata kek_object })
  let annotations := updated_objects.map (·.additional_data)
  let categories :=
    updated_objects.foldl
      (fun cats kek_object =>
        pyUpdate cats (kek_object.class_id + 1)
          (mscocoHardCategoryDict kek_object))
      []
  (⟨image_dict, annotations, categories⟩,
   { kek_format with
       additional_data := image_dict
       kek_objects := updated_objects })

/-! ## MS COCO batch category accumulation (`converters/mscoco.py`) -/

/-- The `unique_categories` accumulation of `mscoco.save_categories`:
every per-image category dictionary is folded into one registry with
`unique_categories.update({category_id: category})`.  Reading the
per-result `'mscoco_simple_categories'` entry and the final JSON dump
are I/O glue and are not modelled; the input is the list of per-image
category dictionaries themselves. -/
def saveCategoriesUnique (categories_dicts : List (PyDict ℤ Category)) :
    PyDict ℤ Category :=
  categories_dicts.foldl
    (fun unique_categories categories_dict =>
      categories_dict.foldl
        (fun u kv => pyUpdate u kv.1 kv.2) unique_categories)
    []

/-- Embeds `mscoco.save_categories`: the list of registry values written to
`categories.json`. -/
def save_categories (categories_dicts : List (PyDict ℤ Category)) :
    List Category :=
  (saveCategoriesUnique categories_dicts).map (·.2)

/-- A Python dictionary key obtained from a value, as in
`unique_categories.update({category['id']: category})`: ints and strings
are usable keys, anything unhashable raises `TypeError`. -/
def keyOfVal : PyVal → Option PyKey
  | .int k => some (.int k)
  | .str s => some (.str s)
  | _ => none

/-- One step of the `create_mscoco_big_dict` category merge:
`unique_categories.update({category['id']: category})`.  `category['id']`
missing is a `KeyError`, an unhashable id a `TypeError`; both are
modelled by the error side. -/
def bigDictCategoryStep (unique_categories : PyDict PyKey Category)
    (category : Category) : Except PyErr (PyDict PyKey Category) :=
  match pyGet? category "id" with
  | none => .error .keyError
  | some v =>
      match keyOfVal v with
      | none => .error .typeError
      | some k => .ok (pyUpdate unique_categories k category)

/-- The `unique_categories` accumulation of
`mscoco.create_mscoco_big_dict`: every result's `categories` list is
folded into one registry keyed by `category['id']`. -/
def bigDictUniqueCategories (category_pieces : List (List Category)) :
    Except PyErr (PyDict PyKey Category) :=
  category_pieces.foldl
    (fun acc categories_piece =>
      categories_piece.foldl
        (fun acc' category => acc'.bind (fun u => bigDictCategoryStep u category))
        acc)
    (.ok [])

/-- A result bundle consumed by `create_mscoco_big_dict`: the
`'mscoco_main_dict'` entry of one worker result, with its `images`,
`annotations` and `categories` pieces. -/
structure BigDictPiece where
  images : List (PyDict String PyVal)
  annotations : List (PyDict String PyVal)
  categories : List Category

/-- The final single-file document built by
`mscoco.create_mscoco_big_dict`. -/
structure MSCocoBigDict where
  info : Option PyVal
  licenses : Option PyVal
  images : List (PyDict String PyVal)
  annotations : List (PyDict String PyVal)
  categories : List Category

/-- Embeds `mscoco.create_mscoco_big_dict`: optional `info`/`licenses`
pass-throughs (their file loading is not modelled), concatenated
`images` and `annotations` arrays, and the deduplicated-by-id category
list. -/
def create_mscoco_big_dict (results : List BigDictPiece)
    (info licenses : Option PyVal) : Except PyErr MSCocoBigDict :=
  (bigDictUniqueCategories (results.map (·.categories))).map
    (fun unique_categories =>
      { info := info
        licenses := licenses
        images := results.foldl (fun acc r => acc ++ r.images) []
        annotations := results.foldl (fun acc r => acc ++ r.annotations) []
        categories := unique_categories.map (·.2) })

/-! ## String parsing helpers (Python `int()` / `Decimal()`) -/

/-- Decimal digits of a nonempty all-digit character list, most
significant first. -/
def digitsVal (ds : List Char) : ℕ :=
  ds.foldl (fun n c => 10 * n + (c.toNat - 48)) 0

/-- Whether every character is an ASCII decimal digit (and the list is
nonempty). -/
def allDigits : List Char → Bool
  | [] => false
  | ds => ds.all Char.isDigit

/-- Strip leading and trailing whitespace, as `int()` / `Decimal()` and
`str.strip()` do. -/
def stripChars (cs : List Char) : List Char :=
  ((cs.dropWhile Char.isWhitespace).reverse.dropWhile Char.isWhitespace).reverse

/-- Python's `int(s)` on a string: optional sign, decimal digits,
surrounding whitespace allowed; anything else raises `ValueError`
(modelled as `none`).  Underscore separators are not modelled. -/
def pyInt? (s : String) : Option ℤ :=
  match stripChars s.data with
  | '-' :: ds => if allDigits ds then some (-(digitsVal ds : ℤ)) else none
  | '+' :: ds => if allDigits ds then some ((digitsVal ds : ℤ)) else none
  | ds => if allDigits ds then some ((digitsVal ds : ℤ)) else none

/-- The digits after the decimal point as a fraction in `[0, 1)`. -/
def fracVal (ds : List Char) : ℚ :=
  (digitsVal ds : ℚ) / ((10 : ℚ) ^ ds.length)

/-- Python's `Decimal(s)` on a string: optional sign, `digits`,
`digits.digits`, `digits.` or `.digits`, surrounding whitespace allowed;
anything else raises `InvalidOperation` (modelled as `none`).  Exponent
notation is not modelled — the label files this program reads carry
plain decimal fractions. -/
def pyDecimalCore? (cs : List Char) : Option ℚ :=
  match cs.span (· ≠ '.') with
  | (ip, []) => if allDigits ip then some ((digitsVal ip : ℚ)) else none
  | (ip, _ :: fp) =>
      if (ip.isEmpty ∨ ip.all Char.isDigit) ∧
          (fp.isEmpty ∨ fp.all Char.isDigit) ∧ ¬(ip.isEmpty ∧ fp.isEmpty) ∧
          fp.all (· ≠ '.') then
        some ((digitsVal ip : ℚ) + fracVal fp)
      else none

/-- Python's `Decimal(s)` with sign and whitespace handling. -/
def pyDecimal? (s : String) : Option ℚ :=
  match stripChars s.data with
  | '-' :: cs => (pyDecimalCore? cs).map Neg.neg
  | '+' :: cs => pyDecimalCore? cs
  | cs => pyDecimalCore? cs

/-- Python's `s.split(' ')` on a character list: split at every single space,
keeping empty pieces, as Python's `str.split` with an explicit
separator. -/
def splitOnSpace : List Char → List (List Char)
  | [] => [[]]
  | c :: rest =>
      if c = ' ' then [] :: splitOnSpace rest
      else
        match splitOnSpace rest with
        | [] => [[c]]
        | piece :: pieces => (c :: piece) :: pieces

/-! ## XML decode (`converters/pascalvoc.py`, `pascalvoc2kek`) -/

/-- A parsed `xml.etree.ElementTree` element: tag, attribute map,
children in document order, and the `.text` before the first child
(`none` for an empty element, as ElementTree reports it). -/
inductive XmlElem where
  | mk : String → List (String × String) → List XmlElem → Option String → XmlElem

/-- The element's tag. -/
def XmlElem.tag : XmlElem → String
  | .mk t _ _ _ => t

/-- The element's attribute map. -/
def XmlElem.attrib : XmlElem → List (String × String)
  | .mk _ a _ _ => a

/-- The element's children. -/
def XmlElem.childElems : XmlElem → List XmlElem
  | .mk _ _ c _ => c

/-- The element's `.text`. -/
def XmlElem.innerText : XmlElem → Option String
  | .mk _ _ _ x => x

/-- Python's `element.find(tag)`: the first direct child with that tag. -/
def XmlElem.findTag (e : XmlElem) (t : String) : Option XmlElem :=
  e.childElems.find? (fun c => c.tag = t)

/-- Python's truthiness for an optional string (`if root.text:`): false
for `None` and for the empty string. -/
def strTruthy : Option String → Bool
  | none => false
  | some t => t ≠ ""

/-- Python's `str.strip()` of ElementTree text. -/
def pyStrip (t : String) : String :=
  ⟨stripChars t.data⟩

/-- The `defaultdict(list)` accumulation of `_xml2dict`: append `v` under
`k`, keeping the first-occurrence order of keys. -/
def addGrouped (acc : List (String × List PyVal)) (k : String) (v : PyVal) :
    List (String × List PyVal) :=
  if k ∈ acc.map Prod.fst then
    acc.map (fun p => if p.1 = k then (p.1, p.2 ++ [v]) else p)
  else
    acc ++ [(k, [v])]

/-- The dict comprehension of `_xml2dict` that collapses singleton lists:
`value[0] if len(value) == 1 else value` for every key of
`children_dict`. -/
def collapseGrouped (grouped : List (String × List PyVal)) :
    PyDict String PyVal :=
  grouped.map
    (fun p =>
      match p.2 with
      | [v] => (p.1, v)
      | vs => (p.1, PyVal.list vs))

/-- The assignment `tree_dict[root.tag][TEXT_TOKEN] = text` with `TEXT_TOKEN = '#text'`:
only ever reached when the value is a dict. -/
def setTextToken (v : PyVal) (text : String) : PyVal :=
  match v with
  | .dict m => .dict (pyUpdate m "#text" (.str text))
  | other => other

mutual

/-- Embeds `pascalvoc._xml2dict`: one XML subtree as a single-key map.  The
initial value is `{} if root.attrib else None` — the attribute *content*
is never stored.  Children are grouped by tag with a `defaultdict(list)`
(singleton lists collapse to the value itself) and overwrite the initial
value entirely.  Truthy `root.text` is stripped; with children present a
nonempty stripped text lands under the `#text` key, without children the
stripped text (possibly empty) becomes the value itself. -/
def xml2dict : XmlElem → String × PyVal
  | .mk tag attrib children text =>
      let base : PyVal :=
        if children.isEmpty then
          if attrib.isEmpty then .null else .dict []
        else
          .dict (collapseGrouped
            ((xml2dictList children).foldl
              (fun acc kv => addGrouped acc kv.1 kv.2) []))
      if strTruthy text then
        let stripped := pyStrip (text.getD "")
        if children.isEmpty then (tag, .str stripped)
        else if stripped = "" then (tag, base)
        else (tag, setTextToken base stripped)
      else
        (tag, base)

/-- The mapping `map(_xml2dict, children)`. -/
def xml2dictList : List XmlElem → List (String × PyVal)
  | [] => []
  | c :: cs => xml2dict c :: xml2dictList cs

end

/-- Embeds `pascalvoc._get_name`: the `<name>` child of an `<object>` element;
a missing child or falsy (`None`/empty) text raises `ValueError`. -/
def getKekName (object_element : XmlElem) : Except PyErr String :=
  match object_element.findTag "name" with
  | none =>
      .error (.valueError "at least one object without class name")
  | some name =>
      match name.innerText with
      | none =>
          .error (.valueError "at least one object with empty name tag")
      | some t =>
          if t = "" then
            .error (.valueError "at least one object with empty name tag")
          else .ok t

/-- Embeds `pascalvoc._get_kek_box`: the `<bndbox>` child with its
`<xmin>/<ymin>/<xmax>/<ymax>` children.  A missing `<bndbox>`, a missing
coordinate child, a `None` coordinate text (empty tag) and a text
`int()` cannot parse are each a `ValueError`. -/
def getKekBox (object_element : XmlElem) : Except PyErr KEKBox :=
  match object_element.findTag "bndbox" with
  | none => .error (.valueError "at least one object without bounding-box")
  | some bndbox =>
      match bndbox.findTag "xmin", bndbox.findTag "ymin",
          bndbox.findTag "xmax", bndbox.findTag "ymax" with
      | some xmin, some ymin, some xmax, some ymax =>
          match xmin.innerText, ymin.innerText,
              xmax.innerText, ymax.innerText with
          | some top_left_x, some top_left_y,
            some bottom_right_x, some bottom_right_y =>
              match pyInt? top_left_x, pyInt? top_left_y,
                  pyInt? bottom_right_x, pyInt? bottom_right_y with
              | some a, some b, some c, some d =>
                  .ok (KEKBox.from_voc ((a : ℚ), (b : ℚ), (c : ℚ), (d : ℚ)))
              | _, _, _, _ =>
                  .error (.valueError "invalid literal for int()")
          | _, _, _, _ =>
              .error (.valueError "at least one object with empty coordinate tag")
      | _, _, _, _ =>
          .error (.valueError "at least one object without coordinate tag")

/-- The per-`<object>` additional data of `pascalvoc2kek`:
`construct_additional_object_data(image_id)` (an `image_id` entry)
updated with `_xml2dict` of every child that is not `name`/`bndbox`. -/
def pascalvocObjectData (image_id : ℤ) (element : XmlElem) :
    PyDict String PyVal :=
  element.childElems.foldl
    (fun d object_element =>
      if object_element.tag = "name" ∨ object_element.tag = "bndbox" then d
      else
        let kv := xml2dict object_element
        pyUpdate d kv.1 kv.2)
    [("image_id", .int image_id)]

/-- The `elif element.tag == 'object'` branch of `pascalvoc2kek` for one
element: name, class-mapper lookup (a missing class name is a
`KeyError`), box, additional data. -/
def pascalvocObject (class_mapper : PyDict String ℤ) (image_id : ℤ)
    (element : XmlElem) : Except PyErr KEKObject := do
  let class_name ← getKekName element
  let class_id ←
    match pyGet? class_mapper class_name with
    | some i => Except.ok i
    | none => Except.error PyErr.keyError
  let kek_box ← getKekBox element
  Except.ok
    ⟨class_id, .str class_name, kek_box, pascalvocObjectData image_id element⟩

/-- The object-collecting loop of `pascalvoc2kek` over the annotation's
direct children: children tagged `object` are decoded in order, the
first error aborts the decode (nothing is silently skipped). -/
def pascalvocObjects (class_mapper : PyDict String ℤ) (image_id : ℤ) :
    List XmlElem → Except PyErr (List KEKObject)
  | [] => .ok []
  | element :: rest =>
      if element.tag = "object" then do
        let kek_object ← pascalvocObject class_mapper image_id element
        let kek_objects ← pascalvocObjects class_mapper image_id rest
        Except.ok (kek_object :: kek_objects)
      else
        pascalvocObjects class_mapper image_id rest

/-! ## MS COCO decode (`converters/mscoco.py`,
`coco_annotations2kek_objects`) -/

/-- Python's `int(x)` on a value: ints pass through, floats truncate
toward zero, strings parse as decimal integers, bools are 0/1; anything
else raises `TypeError` (modelled as `none`, folded into the value-error
side by callers). -/
def pyIntOfVal : PyVal → Option ℤ
  | .int k => some k
  | .float q => some (pyTrunc q)
  | .str s => pyInt? s
  | .bool b => some (if b then 1 else 0)
  | _ => none

/-- A numeric value (int or float) as a rational; `bool` counts as 0/1
as everywhere in Python arithmetic. -/
def numOfVal : PyVal → Option ℚ
  | .int k => some (k : ℚ)
  | .float q => some q
  | .bool b => some (if b then 1 else 0)
  | _ => none

/-- The category lookup of `coco_annotations2kek_objects`:
`coco_categories[class_id]`, and on a `KeyError` a single retry
`coco_categories[int(class_id)]` whose `KeyError` propagates.  An
unhashable id is a `TypeError`, an id `int()` cannot convert a
`ValueError`. -/
def cocoCategoryLookup (coco_categories : PyDict PyKey Category)
    (class_id : PyVal) : Except PyErr Category :=
  match keyOfVal class_id with
  | none => .error .typeError
  | some k =>
      match pyGet? coco_categories k with
      | some category => .ok category
      | none =>
          match pyIntOfVal class_id with
          | none => .error (.valueError "int() argument")
          | some i =>
              match pyGet? coco_categories (.int i) with
              | some category => .ok category
              | none => .error .keyError

/-- The value `annotation['bbox']` unpacked and passed to `KEKBox.from_coco`: the
value must be a sequence of four numbers. -/
def cocoBoxOfVal : PyVal → Except PyErr KEKBox
  | .list [a, b, c, d] =>
      match numOfVal a, numOfVal b, numOfVal c, numOfVal d with
      | some x, some y, some w, some h =>
          .ok (KEKBox.from_coco (x, y, w, h))
      | _, _, _, _ => .error .typeError
  | _ => .error (.valueError "cannot unpack bbox")

/-- One iteration of `coco_annotations2kek_objects`: category lookup
(with the integer-coercion retry), zero-based `class_id`, class name
from the category record, box from `bbox`, and the additional data —
`image_id`, every annotation key except `category_id`/`bbox`, and every
category key except `name`/`id`. -/
def cocoAnnotationToKekObject (image_id : ℤ)
    (coco_categories : PyDict PyKey Category)
    (annot : PyDict String PyVal) : Except PyErr KEKObject :=
  match pyGet? annot "category_id" with
  | none => .error .keyError
  | some class_id_val =>
      match cocoCategoryLookup coco_categories class_id_val with
      | .error e => .error e
      | .ok category =>
          match pyIntOfVal class_id_val with
          | none => .error (.valueError "int() argument")
          | some class_id =>
              match pyGet? category "name" with
              | none => .error .keyError
              | some class_name =>
                  match pyGet? annot "bbox" with
                  | none => .error .keyError
                  | some bbox_val =>
                      match cocoBoxOfVal bbox_val with
                      | .error e => .error e
                      | .ok kek_box =>
                          let object_additional_data :=
                            annot.foldl
                              (fun d kv =>
                                if kv.1 = "category_id" ∨ kv.1 = "bbox" then d
                                else pyUpdate d kv.1 kv.2)
                              [("image_id", .int image_id)]
                          let object_additional_data :=
                            category.foldl
                              (fun d kv =>
                                if kv.1 = "name" ∨ kv.1 = "id" then d
                                else pyUpdate d kv.1 kv.2)
                              object_additional_data
                          .ok ⟨class_id - 1, class_name, kek_box,
                            object_additional_data⟩

/-- Embeds `mscoco.coco_annotations2kek_objects`: the per-annotation conversion
in order; the first exception aborts the decode and propagates to the
caller. -/
def coco_annotations2kek_objects (image_id : ℤ)
    (coco_categories : PyDict PyKey Category) :
    List (PyDict String PyVal) → Except PyErr (List KEKObject)
  | [] => .ok []
  | annot :: rest => do
      let kek_object ←
        cocoAnnotationToKekObject image_id coco_categories annot
      let kek_objects ←
        coco_annotations2kek_objects image_id coco_categories rest
      Except.ok (kek_object :: kek_objects)

/-! ## Darknet decode (`converters/darknet.py`, `darknet2kek`) -/

/-- The string branch of `entities.KEKBox.from_darknet`:
`map(Decimal, str_box.split(' '))` unpacked into the four box fields; a
bad literal or a wrong field count raises. -/
def parseDarknetBox (str_box : String) : Except PyErr DarknetBox :=
  match (splitOnSpace str_box.data).mapM (fun piece => pyDecimal? (⟨piece⟩ : String)) with
  | none => .error (.valueError "invalid decimal literal")
  | some qs =>
      match qs with
      | [center_x, center_y, box_width, box_height] =>
          .ok ⟨center_x, center_y, box_width, box_height⟩
      | _ => .error (.valueError "cannot unpack darknet box")

/-- Python's `darknet_label.find(' ')` and the two slices `darknet_label[:i]` /
`darknet_label[i+1:]` of `darknet2kek`; `find` returns `-1` when there
is no space, making the slices `darknet_label[:-1]` and the whole
line. -/
def darknetSplitLabel (darknet_label : String) : String × String :=
  match darknet_label.data.findIdx? (fun c => c = ' ') with
  | some first_space =>
      (⟨darknet_label.data.take first_space⟩,
       ⟨darknet_label.data.drop (first_space + 1)⟩)
  | none => (⟨darknet_label.data.dropLast⟩, darknet_label)

/-- One iteration of the `darknet2kek` label loop: the text before the
first space is the class id, the rest is the box; the box is parsed
first, then `int(class_id)` (a `ValueError` on bad text), then the
class-mapper lookup `class_mapper[int(class_id)]` — the mapper is
indexed with the *integer* key, so a mapper keyed by digit strings
always raises `KeyError`. -/
def darknetLabelToKekObject (class_mapper : PyDict PyKey PyVal)
    (image_id : ℤ) (image_shape : ImageShape) (darknet_label : String) :
    Except PyErr KEKObject :=
  let pieces := darknetSplitLabel darknet_label
  match parseDarknetBox pieces.2 with
  | .error e => .error e
  | .ok box =>
      let kek_box := KEKBox.from_darknet box image_shape
      match pyInt? pieces.1 with
      | none => .error (.valueError "invalid literal for int()")
      | some class_id =>
          match pyGet? class_mapper (.int class_id) with
          | none => .error .keyError
          | some class_name =>
              .ok ⟨class_id, class_name, kek_box,
                [("image_id", .int image_id)]⟩

/-- The label loop of `darknet2kek`: each line becomes one object, in
order; the first exception aborts the loop. -/
def darknetLabelsToKekObjects (class_mapper : PyDict PyKey PyVal)
    (image_id : ℤ) (image_shape : ImageShape) :
    List String → Except PyErr (List KEKObject)
  | [] => .ok []
  | darknet_label :: rest => do
      let kek_object ←
        darknetLabelToKekObject class_mapper image_id image_shape darknet_label
      let kek_objects ←
        darknetLabelsToKekObjects class_mapper image_id image_shape rest
      Except.ok (kek_object :: kek_objects)

/-- Embeds `darknet.darknet2kek`: every line of the label file becomes one
object; the first exception aborts the decode.  The filename and the
`path`/`folder` additional data come from the image entry and are taken
as parameters; reading the image shape from the file is not modelled
either, the shape is a parameter. -/
def darknet2kek (class_mapper : PyDict PyKey PyVal) (image_id : ℤ)
    (image_shape : ImageShape) (filename path folder : String)
    (darknet_labels : List String) : Except PyErr KEKImage := do
  let kek_objects ←
    darknetLabelsToKekObjects class_mapper image_id image_shape darknet_labels
  Except.ok
    ⟨image_id, filename, image_shape, kek_objects,
     [("path", .str path), ("folder", .str folder)]⟩


/-- The computation raised a Python exception. -/
def isError {α : Type} : Except PyErr α → Prop
  | .error _ => True
  | .ok _ => False

theorem pyTrunc_intCast (n : ℤ) : pyTrunc (n : ℚ) = n := by
  unfold pyTrunc
  split
  · exact Int.floor_intCast n
  · exact Int.ceil_intCast n

theorem pyTrunc_nonneg {q : ℚ} (h : 0 ≤ q) : 0 ≤ pyTrunc q := by
  unfold pyTrunc
  rw [if_pos h]
  exact Int.floor_nonneg.mpr h

theorem pyTrunc_le_intCast {q : ℚ} {n : ℤ} (h : q ≤ (n : ℚ)) :
    pyTrunc q ≤ n := by
  unfold pyTrunc
  split
  · calc ⌊q⌋ ≤ ⌊(n : ℚ)⌋ := Int.floor_le_floor h
    _ = n := Int.floor_intCast n
  · exact Int.ceil_le.mpr h

theorem fromDarknetRaw_to_darknet_box (tlx tly brx bry : ℤ) (s : ImageShape)
    (hw : s.width ≠ 0) (hh : s.height ≠ 0) :
    KEKBox.fromDarknetRaw
        ((KEKBox.mk tlx tly brx bry).to_darknet_box s) s =
      ⟨tlx - 1, tly - 1, brx - 1, bry - 1⟩ := by
  have hwq : (s.width : ℚ) ≠ 0 := Int.cast_ne_zero.mpr hw
  have hhq : (s.height : ℚ) ≠ 0 := Int.cast_ne_zero.mpr hh
  simp only [KEKBox.fromDarknetRaw, KEKBox.to_darknet_box, RawCorners.mk.injEq]
  refine ⟨?_, ?_, ?_, ?_⟩
  · rw [show (1 / (s.width : ℚ) * (((tlx : ℚ) + (brx : ℚ)) / 2 - 1) -
        1 / (s.width : ℚ) * ((brx : ℚ) - (tlx : ℚ)) / 2) * s.width
        = ((tlx - 1 : ℤ) : ℚ) by push_cast; field_simp; ring]
    exact pyTrunc_intCast _
  · rw [show (1 / (s.height : ℚ) * (((tly : ℚ) + (bry : ℚ)) / 2 - 1) -
        1 / (s.height : ℚ) * ((bry : ℚ) - (tly : ℚ)) / 2) * s.height
        = ((tly - 1 : ℤ) : ℚ) by push_cast; field_simp; ring]
    exact pyTrunc_intCast _
  · rw [show (1 / (s.width : ℚ) * (((tlx : ℚ) + (brx : ℚ)) / 2 - 1) +
        1 / (s.width : ℚ) * ((brx : ℚ) - (tlx : ℚ)) / 2) * s.width
        = ((brx - 1 : ℤ) : ℚ) by push_cast; field_simp; ring]
    exact pyTrunc_intCast _
  · rw [show (1 / (s.height : ℚ) * (((tly : ℚ) + (bry : ℚ)) / 2 - 1) +
        1 / (s.height : ℚ) * ((bry : ℚ) - (tly : ℚ)) / 2) * s.height
        = ((bry - 1 : ℤ) : ℚ) by push_cast; field_simp; ring]
    exact pyTrunc_intCast _

theorem to_darknet_pretrunc (tlx tly brx bry : ℤ) (s : ImageShape)
    (hw : s.width ≠ 0) (hh : s.height ≠ 0) :
    (((KEKBox.mk tlx tly brx bry).to_darknet_box s).center_x -
        ((KEKBox.mk tlx tly brx bry).to_darknet_box s).box_width / 2) *
      s.width = (tlx : ℚ) - 1 ∧
    (((KEKBox.mk tlx tly brx bry).to_darknet_box s).center_y -
        ((KEKBox.mk tlx tly brx bry).to_darknet_box s).box_height / 2) *
      s.height = (tly : ℚ) - 1 ∧
    (((KEKBox.mk tlx tly brx bry).to_darknet_box s).center_x +
        ((KEKBox.mk tlx tly brx bry).to_darknet_box s).box_width / 2) *
      s.width = (brx : ℚ) - 1 ∧
    (((KEKBox.mk tlx tly brx bry).to_darknet_box s).center_y +
        ((KEKBox.mk tlx tly brx bry).to_darknet_box s).box_height / 2) *
      s.height = (bry : ℚ) - 1 := by
  have hwq : (s.width : ℚ) ≠ 0 := Int.cast_ne_zero.mpr hw
  have hhq : (s.height : ℚ) ≠ 0 := Int.cast_ne_zero.mpr hh
  simp only [KEKBox.to_darknet_box]
  refine ⟨?_, ?_, ?_, ?_⟩ <;> field_simp <;> ring

theorem perturb_lt_one (e f W δ : ℚ) (he : |e| ≤ δ) (hf : |f| ≤ δ)
    (hW : 0 ≤ W) (h : 3 * δ * W < 2) : |(e - f / 2) * W| < 1 := by
  rw [abs_mul, abs_of_nonneg hW]
  have h1 : |e - f / 2| ≤ δ + δ / 2 := by
    have h2 : |e - f / 2| ≤ |e| + |f / 2| := abs_sub _ _
    have h3 : |f / 2| = |f| / 2 := by
      rw [abs_div]
      norm_num
    rw [h3] at h2
    linarith
  have h4 : |e - f / 2| * W ≤ (δ + δ / 2) * W :=
    mul_le_mul_of_nonneg_right h1 hW
  nlinarith

theorem pyTrunc_near (n : ℤ) (q : ℚ) (hn : 0 ≤ n) (h : |q - n| < 1) :
    pyTrunc q = n ∨ pyTrunc q = n - 1 := by
  rw [abs_lt] at h
  obtain ⟨h1, h2⟩ := h
  unfold pyTrunc
  split
  · have hlow : n - 1 ≤ ⌊q⌋ := Int.le_floor.mpr (by push_cast; linarith)
    have hhigh : ⌊q⌋ < n + 1 := Int.floor_lt.mpr (by push_cast; linarith)
    omega
  · next hq =>
      have hq' : q < 0 := lt_of_not_le hq
      have hc0 : ⌈q⌉ ≤ 0 := Int.ceil_le.mpr (by exact_mod_cast hq'.le)
      have hcl : n - 1 < ⌈q⌉ := Int.lt_ceil.mpr (by push_cast; linarith)
      omega

theorem from_darknet_bounds (box : DarknetBox) (s : ImageShape)
    (hw : 0 < s.width) (hh : 0 < s.height)
    (hcx0 : 0 ≤ box.center_x) (hcx1 : box.center_x ≤ 1)
    (hbw0 : 0 ≤ box.box_width) (hbw1 : box.box_width ≤ 1)
    (hcy0 : 0 ≤ box.center_y) (hcy1 : box.center_y ≤ 1)
    (hbh0 : 0 ≤ box.box_height) (hbh1 : box.box_height ≤ 1) :
    (0 ≤ (KEKBox.from_darknet box s).top_left_x ∧
      (KEKBox.from_darknet box s).top_left_x ≤ s.width) ∧
    (0 ≤ (KEKBox.from_darknet box s).top_left_y ∧
      (KEKBox.from_darknet box s).top_left_y ≤ s.height) ∧
    (0 ≤ (KEKBox.from_darknet box s).bottom_right_x ∧
      (KEKBox.from_darknet box s).bottom_right_x ≤ s.width) ∧
    (0 ≤ (KEKBox.from_darknet box s).bottom_right_y ∧
      (KEKBox.from_darknet box s).bottom_right_y ≤ s.height) := by
  have hwq : (0 : ℚ) ≤ s.width := by exact_mod_cast hw.le
  have hhq : (0 : ℚ) ≤ s.height := by exact_mod_cast hh.le
  unfold KEKBox.from_darknet KEKBox.fromDarknetRaw
  simp only []
  refine ⟨⟨?_, ?_⟩, ⟨?_, ?_⟩, ⟨?_, ?_⟩, ⟨?_, ?_⟩⟩
  · split
    · norm_num
    · next hlt =>
        have : (0 : ℤ) ≤ pyTrunc ((box.center_x - box.box_width / 2) * s.width) :=
          le_of_not_lt hlt
        exact_mod_cast this
  · split
    · exact_mod_cast hw.le
    · have harg : (box.center_x - box.box_width / 2) * s.width ≤ (s.width : ℚ) := by
        nlinarith
      have := pyTrunc_le_intCast harg
      exact_mod_cast this
  · split
    · norm_num
    · next hlt =>
        have : (0 : ℤ) ≤ pyTrunc ((box.center_y - box.box_height / 2) * s.height) :=
          le_of_not_lt hlt
        exact_mod_cast this
  · split
    · exact_mod_cast hh.le
    · have harg : (box.center_y - box.box_height / 2) * s.height ≤ (s.height : ℚ) := by
        nlinarith
      have := pyTrunc_le_intCast harg
      exact_mod_cast this
  · split
    · exact_mod_cast hw.le
    · have harg : (0 : ℚ) ≤ (box.center_x + box.box_width / 2) * s.width := by
        nlinarith
      have := pyTrunc_nonneg harg
      exact_mod_cast this
  · split
    · exact_mod_cast le_refl (s.width : ℚ)
    · next hgt =>
        have : pyTrunc ((box.center_x + box.box_width / 2) * s.width) ≤ s.width :=
          le_of_not_lt hgt
        exact_mod_cast this
  · split
    · exact_mod_cast hh.le
    · have harg : (0 : ℚ) ≤ (box.center_y + box.box_height / 2) * s.height := by
        nlinarith
      have := pyTrunc_nonneg harg
      exact_mod_cast this
  · split
    · exact_mod_cast le_refl (s.height : ℚ)
    · next hgt =>
        have : pyTrunc ((box.center_y + box.box_height / 2) * s.height) ≤ s.height :=
          le_of_not_lt hgt
        exact_mod_cast this

/-- C1, counterexample: the claim's formula `center_x =
((top_left_x + bottom_right_x)/2) / width` fails on the code — for the
box `(2, 2, 4, 4)` on a 10×10×3 image, `to_darknet_box` returns
`center_x = ((2+4)/2 - 1)/10 = 1/5`, not `3/10`. -/
theorem C1_counterexample :
    ((KEKBox.mk 2 2 4 4).to_darknet_box ⟨10, 10, 3⟩).center_x ≠
      ((2 + 4) / 2) / 10 := by
  simp only [KEKBox.to_darknet_box]
  norm_num

/-- C1, amended: for every `KEKBox` and every image shape with positive
width and height, `to_darknet_box` returns
`center_x = ((top_left_x + bottom_right_x)/2 - 1) / width`,
`center_y = ((top_left_y + bottom_right_y)/2 - 1) / height`,
box width `(bottom_right_x - top_left_x) / width` and box height
`(bottom_right_y - top_left_y) / height` — the center coordinates carry
the source's `- 1` pixel shift, which the claim omits. -/
theorem C1_to_darknet_box_formula (b : KEKBox) (s : ImageShape)
    (hw : 0 < s.width) (hh : 0 < s.height) :
    b.to_darknet_box s =
      ⟨((b.top_left_x + b.bottom_right_x) / 2 - 1) / s.width,
       ((b.top_left_y + b.bottom_right_y) / 2 - 1) / s.height,
       (b.bottom_right_x - b.top_left_x) / s.width,
       (b.bottom_right_y - b.top_left_y) / s.height⟩ := by
  simp only [KEKBox.to_darknet_box, DarknetBox.mk.injEq]
  exact ⟨one_div_mul_eq_div _ _, one_div_mul_eq_div _ _,
    one_div_mul_eq_div _ _, one_div_mul_eq_div _ _⟩

/-- C1, witness: the amended formula evaluated on the box `(2, 2, 4, 4)`
and the 10×10×3 image shape. -/
theorem C1_witness :
    (0 : ℤ) < 10 ∧
    (KEKBox.mk 2 2 4 4).to_darknet_box ⟨10, 10, 3⟩ =
      ⟨((2 + 4) / 2 - 1) / 10, ((2 + 4) / 2 - 1) / 10,
       (4 - 2) / 10, (4 - 2) / 10⟩ :=
  ⟨by norm_num,
   C1_to_darknet_box_formula ⟨2, 2, 4, 4⟩ ⟨10, 10, 3⟩ (by norm_num) (by norm_num)⟩

/-- C2, counterexample: for the box `(10, 10, 20, 20)` on a 50×50×3
image the clamping branch does not fire, yet the Darknet round trip
misses the original by at least `1/50 = 0.02 > 0.01` per component on
the normalized scale — shown both for the exact fractions
`to_darknet_box` computes and for a concrete float realization of them
perturbed by `10⁻⁹` per component, which truncates one pixel lower
still.  Every realization within the float bound fails the tolerance the
same way (see the amended theorem), so the claim is false of the program
whatever its doubles round to. -/
theorem C2_counterexample :
    (0 : ℤ) < 50 ∧
    ¬ clampFires ((KEKBox.mk 10 10 20 20).to_darknet_box ⟨50, 50, 3⟩)
      ⟨50, 50, 3⟩ ∧
    ¬ withinDarknetTol ⟨10, 10, 20, 20⟩
      (KEKBox.from_darknet
        ((KEKBox.mk 10 10 20 20).to_darknet_box ⟨50, 50, 3⟩) ⟨50, 50, 3⟩)
      ⟨50, 50, 3⟩ ∧
    floatRealizes
      ⟨7/25 - 1/1000000000, 7/25 - 1/1000000000,
       1/5 - 1/1000000000, 1/5 - 1/1000000000⟩
      ((KEKBox.mk 10 10 20 20).to_darknet_box ⟨50, 50, 3⟩)
      (1/1000000000) ∧
    ¬ clampFires
      ⟨7/25 - 1/1000000000, 7/25 - 1/1000000000,
       1/5 - 1/1000000000, 1/5 - 1/1000000000⟩ ⟨50, 50, 3⟩ ∧
    ¬ withinDarknetTol ⟨10, 10, 20, 20⟩
      (KEKBox.from_darknet
        ⟨7/25 - 1/1000000000, 7/25 - 1/1000000000,
         1/5 - 1/1000000000, 1/5 - 1/1000000000⟩ ⟨50, 50, 3⟩)
      ⟨50, 50, 3⟩ := by
  refine ⟨by norm_num, ?_, ?_, ?_, ?_, ?_⟩
  · simp only [clampFires, KEKBox.fromDarknetRaw, KEKBox.to_darknet_box, pyTrunc]
    norm_num
  · simp only [withinDarknetTol, KEKBox.from_darknet,
      KEKBox.fromDarknetRaw, KEKBox.to_darknet_box, pyTrunc]
    norm_num
  · simp only [floatRealizes, KEKBox.to_darknet_box]
    norm_num [abs_of_nonneg]
  · simp only [clampFires, KEKBox.fromDarknetRaw, pyTrunc]
    norm_num
  · simp only [withinDarknetTol, KEKBox.from_darknet,
      KEKBox.fromDarknetRaw, pyTrunc]
    norm_num

/-- C2, amended: for every `KEKBox` with integer coordinates all at
least 1, every image shape with positive dimensions, and every box the
decoder can actually receive — any `floatRealizes` realization of
`to_darknet_box`'s exact fractions within a per-component bound `δ`
small enough that `3·δ·dimension < 2` — on which the clamping branch of
`from_darknet` does not fire, the round trip returns each coordinate
shifted down by one or two pixels (the exact arithmetic gives one; the
`float()`/`str`/`Decimal` re-encoding sits on an `int()` truncation
boundary and can push a coordinate one pixel further).  Consequently the
0.01 normalized tolerance fails whenever `width < 100` or
`height < 100`, and is guaranteed whenever both dimensions are at least
200; between 100 and 200 it depends on the direction the floats
round. -/
theorem C2_float_round_trip (tlx tly brx bry : ℤ) (s : ImageShape)
    (b' : DarknetBox) (δ : ℚ)
    (hw : 0 < s.width) (hh : 0 < s.height)
    (htlx : 1 ≤ tlx) (htly : 1 ≤ tly) (hbrx : 1 ≤ brx) (hbry : 1 ≤ bry)
    (hδw : 3 * δ * s.width < 2) (hδh : 3 * δ * s.height < 2)
    (hreal : floatRealizes b'
      ((KEKBox.mk tlx tly brx bry).to_darknet_box s) δ)
    (hnc : ¬ clampFires b' s) :
    ((KEKBox.from_darknet b' s).top_left_x = (tlx : ℚ) - 1 ∨
      (KEKBox.from_darknet b' s).top_left_x = (tlx : ℚ) - 2) ∧
    ((KEKBox.from_darknet b' s).top_left_y = (tly : ℚ) - 1 ∨
      (KEKBox.from_darknet b' s).top_left_y = (tly : ℚ) - 2) ∧
    ((KEKBox.from_darknet b' s).bottom_right_x = (brx : ℚ) - 1 ∨
      (KEKBox.from_darknet b' s).bottom_right_x = (brx : ℚ) - 2) ∧
    ((KEKBox.from_darknet b' s).bottom_right_y = (bry : ℚ) - 1 ∨
      (KEKBox.from_darknet b' s).bottom_right_y = (bry : ℚ) - 2) ∧
    (s.width < 100 ∨ s.height < 100 →
      ¬ withinDarknetTol ⟨tlx, tly, brx, bry⟩ (KEKBox.from_darknet b' s) s) ∧
    (200 ≤ s.width → 200 ≤ s.height →
      withinDarknetTol ⟨tlx, tly, brx, bry⟩ (KEKBox.from_darknet b' s) s) := by
  have hWq : (0 : ℚ) ≤ s.width := by exact_mod_cast hw.le
  have hHq : (0 : ℚ) ≤ s.height := by exact_mod_cast hh.le
  have hWpos : (0 : ℚ) < s.width := by exact_mod_cast hw
  have hHpos : (0 : ℚ) < s.height := by exact_mod_cast hh
  obtain ⟨p1, p2, p3, p4⟩ := to_darknet_pretrunc tlx tly brx bry s hw.ne' hh.ne'
  obtain ⟨hcx, hcy, hbw, hbh⟩ := hreal
  have n1 := pyTrunc_near (tlx - 1) ((b'.center_x - b'.box_width / 2) * s.width)
    (by omega)
    (by
      rw [show (b'.center_x - b'.box_width / 2) * s.width - ((tlx - 1 : ℤ) : ℚ)
          = ((b'.center_x -
                ((KEKBox.mk tlx tly brx bry).to_darknet_box s).center_x) -
              (b'.box_width -
                ((KEKBox.mk tlx tly brx bry).to_darknet_box s).box_width) / 2) *
            s.width by push_cast; rw [← p1]; ring]
      exact perturb_lt_one _ _ _ δ hcx hbw hWq hδw)
  have n2 := pyTrunc_near (tly - 1) ((b'.center_y - b'.box_height / 2) * s.height)
    (by omega)
    (by
      rw [show (b'.center_y - b'.box_height / 2) * s.height - ((tly - 1 : ℤ) : ℚ)
          = ((b'.center_y -
                ((KEKBox.mk tlx tly brx bry).to_darknet_box s).center_y) -
              (b'.box_height -
                ((KEKBox.mk tlx tly brx bry).to_darknet_box s).box_height) / 2) *
            s.height by push_cast; rw [← p2]; ring]
      exact perturb_lt_one _ _ _ δ hcy hbh hHq hδh)
  have n3 := pyTrunc_near (brx - 1) ((b'.center_x + b'.box_width / 2) * s.width)
    (by omega)
    (by
      rw [show (b'.center_x + b'.box_width / 2) * s.width - ((brx - 1 : ℤ) : ℚ)
          = ((b'.center_x -
                ((KEKBox.mk tlx tly brx bry).to_darknet_box s).center_x) -
              (-(b'.box_width -
                ((KEKBox.mk tlx tly brx bry).to_darknet_box s).box_width)) / 2) *
            s.width by push_cast; rw [← p3]; ring]
      exact perturb_lt_one _ _ _ δ hcx (by rwa [abs_neg]) hWq hδw)
  have n4 := pyTrunc_near (bry - 1) ((b'.center_y + b'.box_height / 2) * s.height)
    (by omega)
    (by
      rw [show (b'.center_y + b'.box_height / 2) * s.height - ((bry - 1 : ℤ) : ℚ)
          = ((b'.center_y -
                ((KEKBox.mk tlx tly brx bry).to_darknet_box s).center_y) -
              (-(b'.box_height -
                ((KEKBox.mk tlx tly brx bry).to_darknet_box s).box_height)) / 2) *
            s.height by push_cast; rw [← p4]; ring]
      exact perturb_lt_one _ _ _ δ hcy (by rwa [abs_neg]) hHq hδh)
  simp only [clampFires] at hnc
  push_neg at hnc
  obtain ⟨g1, g2, g3, g4⟩ := hnc
  have R1 : (KEKBox.from_darknet b' s).top_left_x =
      ((KEKBox.fromDarknetRaw b' s).tlx : ℚ) := by
    show (if (KEKBox.fromDarknetRaw b' s).tlx < 0 then ((0 : ℤ) : ℚ)
      else ((KEKBox.fromDarknetRaw b' s).tlx : ℚ)) = _
    rw [if_neg (not_lt.mpr g1)]
  have R2 : (KEKBox.from_darknet b' s).top_left_y =
      ((KEKBox.fromDarknetRaw b' s).tly : ℚ) := by
    show (if (KEKBox.fromDarknetRaw b' s).tly < 0 then ((0 : ℤ) : ℚ)
      else ((KEKBox.fromDarknetRaw b' s).tly : ℚ)) = _
    rw [if_neg (not_lt.mpr g2)]
  have R3 : (KEKBox.from_darknet b' s).bottom_right_x =
      ((KEKBox.fromDarknetRaw b' s).brx : ℚ) := by
    show (if (KEKBox.fromDarknetRaw b' s).brx > s.width then (s.width : ℚ)
      else ((KEKBox.fromDarknetRaw b' s).brx : ℚ)) = _
    rw [if_neg (not_lt.mpr g3)]
  have R4 : (KEKBox.from_darknet b' s).bottom_right_y =
      ((KEKBox.fromDarknetRaw b' s).bry : ℚ) := by
    show (if (KEKBox.fromDarknetRaw b' s).bry > s.height then (s.height : ℚ)
      else ((KEKBox.fromDarknetRaw b' s).bry : ℚ)) = _
    rw [if_neg (not_lt.mpr g4)]
  have m1 : (KEKBox.from_darknet b' s).top_left_x = (tlx : ℚ) - 1 ∨
      (KEKBox.from_darknet b' s).top_left_x = (tlx : ℚ) - 2 := by
    rw [R1, show (KEKBox.fromDarknetRaw b' s).tlx =
      pyTrunc ((b'.center_x - b'.box_width / 2) * s.width) from rfl]
    rcases n1 with h | h
    · left; rw [h]; push_cast; ring
    · right; rw [h]; push_cast; ring
  have m2 : (KEKBox.from_darknet b' s).top_left_y = (tly : ℚ) - 1 ∨
      (KEKBox.from_darknet b' s).top_left_y = (tly : ℚ) - 2 := by
    rw [R2, show (KEKBox.fromDarknetRaw b' s).tly =
      pyTrunc ((b'.center_y - b'.box_height / 2) * s.height) from rfl]
    rcases n2 with h | h
    · left; rw [h]; push_cast; ring
    · right; rw [h]; push_cast; ring
  have m3 : (KEKBox.from_darknet b' s).bottom_right_x = (brx : ℚ) - 1 ∨
      (KEKBox.from_darknet b' s).bottom_right_x = (brx : ℚ) - 2 := by
    rw [R3, show (KEKBox.fromDarknetRaw b' s).brx =
      pyTrunc ((b'.center_x + b'.box_width / 2) * s.width) from rfl]
    rcases n3 with h | h
    · left; rw [h]; push_cast; ring
    · right; rw [h]; push_cast; ring
  have m4 : (KEKBox.from_darknet b' s).bottom_right_y = (bry : ℚ) - 1 ∨
      (KEKBox.from_darknet b' s).bottom_right_y = (bry : ℚ) - 2 := by
    rw [R4, show (KEKBox.fromDarknetRaw b' s).bry =
      pyTrunc ((b'.center_y + b'.box_height / 2) * s.height) from rfl]
    rcases n4 with h | h
    · left; rw [h]; push_cast; ring
    · right; rw [h]; push_cast; ring
  have a1 : 1 ≤ |(KEKBox.from_darknet b' s).top_left_x - (tlx : ℚ)| ∧
      |(KEKBox.from_darknet b' s).top_left_x - (tlx : ℚ)| ≤ 2 := by
    rcases m1 with h | h
    · rw [h, show ((tlx : ℚ) - 1) - (tlx : ℚ) = -1 from by ring]; norm_num
    · rw [h, show ((tlx : ℚ) - 2) - (tlx : ℚ) = -2 from by ring]; norm_num
  have a2 : 1 ≤ |(KEKBox.from_darknet b' s).top_left_y - (tly : ℚ)| ∧
      |(KEKBox.from_darknet b' s).top_left_y - (tly : ℚ)| ≤ 2 := by
    rcases m2 with h | h
    · rw [h, show ((tly : ℚ) - 1) - (tly : ℚ) = -1 from by ring]; norm_num
    · rw [h, show ((tly : ℚ) - 2) - (tly : ℚ) = -2 from by ring]; norm_num
  have a3 : 1 ≤ |(KEKBox.from_darknet b' s).bottom_right_x - (brx : ℚ)| ∧
      |(KEKBox.from_darknet b' s).bottom_right_x - (brx : ℚ)| ≤ 2 := by
    rcases m3 with h | h
    · rw [h, show ((brx : ℚ) - 1) - (brx : ℚ) = -1 from by ring]; norm_num
    · rw [h, show ((brx : ℚ) - 2) - (brx : ℚ) = -2 from by ring]; norm_num
  have a4 : 1 ≤ |(KEKBox.from_darknet b' s).bottom_right_y - (bry : ℚ)| ∧
      |(KEKBox.from_darknet b' s).bottom_right_y - (bry : ℚ)| ≤ 2 := by
    rcases m4 with h | h
    · rw [h, show ((bry : ℚ) - 1) - (bry : ℚ) = -1 from by ring]; norm_num
    · rw [h, show ((bry : ℚ) - 2) - (bry : ℚ) = -2 from by ring]; norm_num
  refine ⟨m1, m2, m3, m4, ?_, ?_⟩
  · intro hsmall hwt
    rcases hsmall with hWs | hHs
    · have hcomp := hwt.1
      have h1W : (1 : ℚ) / s.width ≤
          |(KEKBox.from_darknet b' s).top_left_x - (tlx : ℚ)| / s.width :=
        (div_le_div_iff_of_pos_right hWpos).mpr a1.1
      have hle : (1 : ℚ) / s.width ≤ 1 / 100 := le_trans h1W hcomp
      have h100 : (100 : ℚ) ≤ s.width :=
        (one_div_le_one_div hWpos (by norm_num)).mp hle
      have hlt : (s.width : ℚ) < 100 := by exact_mod_cast hWs
      linarith
    · have hcomp := hwt.2.1
      have h1H : (1 : ℚ) / s.height ≤
          |(KEKBox.from_darknet b' s).top_left_y - (tly : ℚ)| / s.height :=
        (div_le_div_iff_of_pos_right hHpos).mpr a2.1
      have hle : (1 : ℚ) / s.height ≤ 1 / 100 := le_trans h1H hcomp
      have h100 : (100 : ℚ) ≤ s.height :=
        (one_div_le_one_div hHpos (by norm_num)).mp hle
      have hlt : (s.height : ℚ) < 100 := by exact_mod_cast hHs
      linarith
  · intro h200w h200h
    have hW200 : (200 : ℚ) ≤ s.width := by exact_mod_cast h200w
    have hH200 : (200 : ℚ) ≤ s.height := by exact_mod_cast h200h
    have htw : (2 : ℚ) / s.width ≤ 1 / 100 := by
      rw [div_le_div_iff₀ hWpos (by norm_num)]
      linarith
    have hth : (2 : ℚ) / s.height ≤ 1 / 100 := by
      rw [div_le_div_iff₀ hHpos (by norm_num)]
      linarith
    refine ⟨?_, ?_, ?_, ?_⟩
    · exact le_trans ((div_le_div_iff_of_pos_right hWpos).mpr a1.2) htw
    · exact le_trans ((div_le_div_iff_of_pos_right hHpos).mpr a2.2) hth
    · exact le_trans ((div_le_div_iff_of_pos_right hWpos).mpr a3.2) htw
    · exact le_trans ((div_le_div_iff_of_pos_right hHpos).mpr a4.2) hth

/-- C2, witness: the amended round trip evaluated at the exact-fraction
realization (`δ = 0`) of the box `(10, 10, 20, 20)`: on a 50×50×3 image
the tolerance fails, on a 200×200×3 image it holds. -/
theorem C2_witness :
    ¬ withinDarknetTol ⟨10, 10, 20, 20⟩
      (KEKBox.from_darknet
        ((KEKBox.mk 10 10 20 20).to_darknet_box ⟨50, 50, 3⟩) ⟨50, 50, 3⟩)
      ⟨50, 50, 3⟩ ∧
    withinDarknetTol ⟨10, 10, 20, 20⟩
      (KEKBox.from_darknet
        ((KEKBox.mk 10 10 20 20).to_darknet_box ⟨200, 200, 3⟩) ⟨200, 200, 3⟩)
      ⟨200, 200, 3⟩ :=
  ⟨(C2_float_round_trip 10 10 20 20 ⟨50, 50, 3⟩
      ((KEKBox.mk 10 10 20 20).to_darknet_box ⟨50, 50, 3⟩) 0
      (by norm_num) (by norm_num) (by norm_num) (by norm_num) (by norm_num)
      (by norm_num) (by norm_num) (by norm_num)
      (by simp [floatRealizes])
      (by
        simp only [clampFires, KEKBox.fromDarknetRaw, KEKBox.to_darknet_box,
          pyTrunc]
        norm_num)).2.2.2.2.1 (Or.inl (by norm_num)),
   (C2_float_round_trip 10 10 20 20 ⟨200, 200, 3⟩
      ((KEKBox.mk 10 10 20 20).to_darknet_box ⟨200, 200, 3⟩) 0
      (by norm_num) (by norm_num) (by norm_num) (by norm_num) (by norm_num)
      (by norm_num) (by norm_num) (by norm_num)
      (by simp [floatRealizes])
      (by
        simp only [clampFires, KEKBox.fromDarknetRaw, KEKBox.to_darknet_box,
          pyTrunc]
        norm_num)).2.2.2.2.2 (by norm_num) (by norm_num)⟩

/-- C6: `from_darknet` replaces a negative scaled-and-truncated top-left
coordinate by `0` and a bottom-right coordinate exceeding the image
dimension by that dimension; consequently, for every normalized Darknet
box (all four fields in `[0, 1]`) and every positive image shape, the
returned box lies within `[0, width] × [0, height]`. -/
theorem C6_from_darknet_clamps (box : DarknetBox) (s : ImageShape) :
    ((KEKBox.fromDarknetRaw box s).tlx < 0 →
      (KEKBox.from_darknet box s).top_left_x = 0) ∧
    ((KEKBox.fromDarknetRaw box s).tly < 0 →
      (KEKBox.from_darknet box s).top_left_y = 0) ∧
    ((KEKBox.fromDarknetRaw box s).brx > s.width →
      (KEKBox.from_darknet box s).bottom_right_x = s.width) ∧
    ((KEKBox.fromDarknetRaw box s).bry > s.height →
      (KEKBox.from_darknet box s).bottom_right_y = s.height) ∧
    (0 < s.width → 0 < s.height →
      0 ≤ box.center_x → box.center_x ≤ 1 →
      0 ≤ box.box_width → box.box_width ≤ 1 →
      0 ≤ box.center_y → box.center_y ≤ 1 →
      0 ≤ box.box_height → box.box_height ≤ 1 →
      (0 ≤ (KEKBox.from_darknet box s).top_left_x ∧
        (KEKBox.from_darknet box s).top_left_x ≤ s.width) ∧
      (0 ≤ (KEKBox.from_darknet box s).top_left_y ∧
        (KEKBox.from_darknet box s).top_left_y ≤ s.height) ∧
      (0 ≤ (KEKBox.from_darknet box s).bottom_right_x ∧
        (KEKBox.from_darknet box s).bottom_right_x ≤ s.width) ∧
      (0 ≤ (KEKBox.from_darknet box s).bottom_right_y ∧
        (KEKBox.from_darknet box s).bottom_right_y ≤ s.height)) := by
  refine ⟨?_, ?_, ?_, ?_, ?_⟩
  · intro h
    unfold KEKBox.from_darknet
    simp only [if_pos h]
  · intro h
    unfold KEKBox.from_darknet
    simp only [if_pos h]
  · intro h
    unfold KEKBox.from_darknet
    simp only [if_pos h]
  · intro h
    unfold KEKBox.from_darknet
    simp only [if_pos h]
  · intro hw hh hcx0 hcx1 hbw0 hbw1 hcy0 hcy1 hbh0 hbh1
    exact from_darknet_bounds box s hw hh hcx0 hcx1 hbw0 hbw1 hcy0 hcy1 hbh0 hbh1

/-- C6, witness: the clamp equations and the bounds evaluated on
concrete normalized boxes over a 100×100×3 image. -/
theorem C6_witness :
    (KEKBox.from_darknet ⟨0, 0, 1/2, 1/2⟩ ⟨100, 100, 3⟩).top_left_x = 0 ∧
    (KEKBox.from_darknet ⟨1, 1, 1/2, 1/2⟩ ⟨100, 100, 3⟩).bottom_right_x = 100 ∧
    (0 ≤ (KEKBox.from_darknet ⟨1/2, 1/2, 1/2, 1/2⟩ ⟨100, 100, 3⟩).top_left_x ∧
      (KEKBox.from_darknet ⟨1/2, 1/2, 1/2, 1/2⟩ ⟨100, 100, 3⟩).top_left_x ≤ 100) ∧
    (0 ≤ (KEKBox.from_darknet ⟨1/2, 1/2, 1/2, 1/2⟩ ⟨100, 100, 3⟩).top_left_y ∧
      (KEKBox.from_darknet ⟨1/2, 1/2, 1/2, 1/2⟩ ⟨100, 100, 3⟩).top_left_y ≤ 100) ∧
    (0 ≤ (KEKBox.from_darknet ⟨1/2, 1/2, 1/2, 1/2⟩ ⟨100, 100, 3⟩).bottom_right_x ∧
      (KEKBox.from_darknet ⟨1/2, 1/2, 1/2, 1/2⟩ ⟨100, 100, 3⟩).bottom_right_x ≤ 100) ∧
    (0 ≤ (KEKBox.from_darknet ⟨1/2, 1/2, 1/2, 1/2⟩ ⟨100, 100, 3⟩).bottom_right_y ∧
      (KEKBox.from_darknet ⟨1/2, 1/2, 1/2, 1/2⟩ ⟨100, 100, 3⟩).bottom_right_y ≤ 100) :=
  ⟨(C6_from_darknet_clamps ⟨0, 0, 1/2, 1/2⟩ ⟨100, 100, 3⟩).1
      (by
        simp only [KEKBox.fromDarknetRaw, pyTrunc]
        rw [if_neg (by norm_num),
          show ((0 : ℚ) - 1/2/2) * (100 : ℤ) = ((-25 : ℤ) : ℚ) by norm_num,
          Int.ceil_intCast]
        norm_num),
   (C6_from_darknet_clamps ⟨1, 1, 1/2, 1/2⟩ ⟨100, 100, 3⟩).2.2.1
      (by simp only [KEKBox.fromDarknetRaw, pyTrunc]; norm_num),
   (C6_from_darknet_clamps ⟨1/2, 1/2, 1/2, 1/2⟩ ⟨100, 100, 3⟩).2.2.2.2
      (by norm_num) (by norm_num) (by norm_num) (by norm_num) (by norm_num)
      (by norm_num) (by norm_num) (by norm_num) (by norm_num) (by norm_num)⟩

theorem pyUpdate_idem {K V : Type} [DecidableEq K] (d : PyDict K V) (k : K)
    (v : V) : pyUpdate (pyUpdate d k v) k v = pyUpdate d k v := by
  unfold pyUpdate
  by_cases h : k ∈ d.map Prod.fst
  · rw [if_pos h]
    have hkeys : k ∈ (d.map (fun p => if p.1 = k then (k, v) else p)).map Prod.fst := by
      obtain ⟨p, hp, hpk⟩ := List.mem_map.mp h
      rw [List.map_map]
      refine List.mem_map.mpr ⟨p, hp, ?_⟩
      simp [hpk]
    rw [if_pos hkeys, List.map_map]
    refine List.map_congr_left ?_
    intro p _
    by_cases hpk : p.1 = k
    · simp [hpk]
    · simp [hpk]
  · rw [if_neg h]
    have hkeys : k ∈ (d ++ [(k, v)]).map Prod.fst := by
      simp
    rw [if_pos hkeys, List.map_append]
    congr 1
    · refine (List.map_congr_left ?_).trans (List.map_id d)
      intro p hp
      have hpk : p.1 ≠ k := fun he => h (List.mem_map.mpr ⟨p, hp, he⟩)
      simp [hpk]
    · simp

theorem bigDictCategoryStep_bind_idem (acc : Except PyErr (PyDict PyKey Category))
    (c : Category) :
    ((acc.bind (fun u => bigDictCategoryStep u c)).bind
        (fun u => bigDictCategoryStep u c)) =
      acc.bind (fun u => bigDictCategoryStep u c) := by
  cases acc with
  | error e => rfl
  | ok u =>
      show (bigDictCategoryStep u c).bind (fun u' => bigDictCategoryStep u' c) =
        bigDictCategoryStep u c
      unfold bigDictCategoryStep
      cases hid : pyGet? c "id" with
      | none => rfl
      | some v =>
          cases hk : keyOfVal v with
          | none => simp only [hk]; rfl
          | some k => simp only [hk, Except.bind, pyUpdate_idem]

/-- C9: merging the same category record (same id, identical content)
into the registry twice yields the same registry as merging it once —
for the `save_categories` accumulation keyed by `category_id` and for
the `create_mscoco_big_dict` accumulation keyed by `category['id']`. -/
theorem C9_category_merge_idem :
    (∀ (ds : List (PyDict ℤ Category)) (k : ℤ) (c : Category),
        save_categories (ds ++ [[(k, c)], [(k, c)]]) =
          save_categories (ds ++ [[(k, c)]])) ∧
    (∀ (ps : List (List Category)) (c : Category),
        bigDictUniqueCategories (ps ++ [[c], [c]]) =
          bigDictUniqueCategories (ps ++ [[c]])) := by
  constructor
  · intro ds k c
    unfold save_categories saveCategoriesUnique
    rw [List.foldl_append, List.foldl_append]
    simp only [List.foldl_cons, List.foldl_nil, pyUpdate_idem]
  · intro ps c
    unfold bigDictUniqueCategories
    rw [List.foldl_append, List.foldl_append]
    simp only [List.foldl_cons, List.foldl_nil]
    exact bigDictCategoryStep_bind_idem _ c

/-- C3, amended: `kek2darknet` and `kek2pascalvoc` return the
`KEKImage` unchanged, but the MS COCO encoders mutate it in place:
`kek2mscoco_simple` and `kek2mscoco_hard` leave `id_`, `filename`,
`shape` and each object's class and box unchanged while inserting
`file_name`/`width`/`height`/`id` into the image's `additional_data` and
`category_id`/`bbox` into each object's `additional_data`. -/
theorem C3_encode_frame (kek_image : KEKImage) :
    (kek2darknet kek_image).2 = kek_image ∧
    (kek2pascalvoc kek_image).2 = kek_image ∧
    ((kek2mscoco_simple kek_image).2.id_ = kek_image.id_ ∧
      (kek2mscoco_simple kek_image).2.filename = kek_image.filename ∧
      (kek2mscoco_simple kek_image).2.shape = kek_image.shape ∧
      (kek2mscoco_simple kek_image).2.additional_data =
        pyUpdate
          (pyUpdate
            (pyUpdate
              (pyUpdate kek_image.additional_data "file_name"
                (.str kek_image.filename))
              "width" (.int kek_image.shape.width))
            "height" (.int kek_image.shape.height))
          "id" (.int kek_image.id_) ∧
      (kek2mscoco_simple kek_image).2.kek_objects =
        kek_image.kek_objects.map
          (fun kek_object =>
            { kek_object with
                additional_data := mscocoObjectMetadata kek_object })) ∧
    ((kek2mscoco_hard kek_image).2.id_ = kek_image.id_ ∧
      (kek2mscoco_hard kek_image).2.filename = kek_image.filename ∧
      (kek2mscoco_hard kek_image).2.shape = kek_image.shape ∧
      (kek2mscoco_hard kek_image).2.additional_data =
        pyUpdate
          (pyUpdate
            (pyUpdate
              (pyUpdate kek_image.additional_data "id" (.int kek_image.id_))
              "file_name" (.str kek_image.filename))
            "width" (.int kek_image.shape.width))
          "height" (.int kek_image.shape.height) ∧
      (kek2mscoco_hard kek_image).2.kek_objects =
        kek_image.kek_objects.map
          (fun kek_object =>
            { kek_object with
                additional_data := mscocoObjectMetadata kek_object })) :=
  ⟨rfl, rfl, ⟨rfl, rfl, rfl, rfl, rfl⟩, ⟨rfl, rfl, rfl, rfl, rfl⟩⟩

/-- C3, counterexample: on a concrete decoded image both MS COCO
encoders return a post-state different from the input `KEKImage`,
refuting the read-only claim. -/
theorem C3_counterexample :
    (kek2mscoco_simple
        ⟨0, "img.jpg", ⟨100, 100, 3⟩,
         [⟨0, .str "car", ⟨1, 1, 2, 2⟩, []⟩], []⟩).2 ≠
      ⟨0, "img.jpg", ⟨100, 100, 3⟩, [⟨0, .str "car", ⟨1, 1, 2, 2⟩, []⟩], []⟩ ∧
    (kek2mscoco_hard
        ⟨0, "img.jpg", ⟨100, 100, 3⟩,
         [⟨0, .str "car", ⟨1, 1, 2, 2⟩, []⟩], []⟩).2 ≠
      ⟨0, "img.jpg", ⟨100, 100, 3⟩, [⟨0, .str "car", ⟨1, 1, 2, 2⟩, []⟩], []⟩ := by
  constructor
  · intro h
    have h' := congrArg (fun i => i.additional_data.length) h
    dsimp only at h'
    have hl : ((kek2mscoco_simple
        ⟨0, "img.jpg", ⟨100, 100, 3⟩,
         [⟨0, .str "car", ⟨1, 1, 2, 2⟩, []⟩], []⟩).2).additional_data.length = 4 := rfl
    rw [hl] at h'
    simp at h'
  · intro h
    have h' := congrArg (fun i => i.additional_data.length) h
    dsimp only at h'
    have hl : ((kek2mscoco_hard
        ⟨0, "img.jpg", ⟨100, 100, 3⟩,
         [⟨0, .str "car", ⟨1, 1, 2, 2⟩, []⟩], []⟩).2).additional_data.length = 4 := rfl
    rw [hl] at h'
    simp at h'

/-- C4, counterexample: an attribute-bearing element converts to the
same map regardless of what its attributes are, and to the empty map
when it has no children and no text — the attributes are not captured
anywhere in the result. -/
theorem C4_counterexample :
    xml2dict (.mk "a" [("k", "v")] [] none) =
      xml2dict (.mk "a" [("other", "zzz")] [] none) ∧
    xml2dict (.mk "a" [("k", "v")] [] none) = ("a", .dict []) :=
  ⟨rfl, rfl⟩

/-- C4, amended: `_xml2dict` discards XML attributes. Any two nonempty
attribute maps on otherwise identical elements produce identical
results, and an attribute-bearing element with no children and no text
converts to an empty map (rather than to the null an attribute-less
element would give); the attributes are never stored in a nested map. -/
theorem C4_xml2dict_drops_attributes (t : String)
    (a₁ a₂ : List (String × String)) (c : List XmlElem) (x : Option String)
    (h₁ : a₁ ≠ []) (h₂ : a₂ ≠ []) :
    xml2dict (.mk t a₁ c x) = xml2dict (.mk t a₂ c x) ∧
    (c = [] → x = none → xml2dict (.mk t a₁ c x) = (t, .dict [])) := by
  have e₁ : a₁.isEmpty = false := by
    cases a₁ with
    | nil => exact absurd rfl h₁
    | cons p r => rfl
  have e₂ : a₂.isEmpty = false := by
    cases a₂ with
    | nil => exact absurd rfl h₂
    | cons p r => rfl
  constructor
  · unfold xml2dict
    rw [e₁, e₂]
  · intro hc hx
    subst hc hx
    unfold xml2dict
    rw [e₁]
    rfl

/-- C4, witness: the amended statement evaluated on a concrete
attribute-bearing, childless, textless element. -/
theorem C4_witness :
    ([("k", "v")] : List (String × String)) ≠ [] ∧
    ([("other", "zzz")] : List (String × String)) ≠ [] ∧
    xml2dict (.mk "a" [("k", "v")] [] none) =
      xml2dict (.mk "a" [("other", "zzz")] [] none) ∧
    xml2dict (.mk "a" [("k", "v")] [] none) = ("a", .dict []) := by
  refine ⟨by simp, by simp, ?_, ?_⟩
  · exact (C4_xml2dict_drops_attributes "a" [("k", "v")] [("other", "zzz")] []
      none (by simp) (by simp)).1
  · exact (C4_xml2dict_drops_attributes "a" [("k", "v")] [("other", "zzz")] []
      none (by simp) (by simp)).2 rfl rfl

/-- C5: evaluation of the `kek2pascalvoc` helper at the failing input —
an `int` scalar (such as the `image_id` every decoded object carries)
and a `float` scalar match none of the `isinstance` branches of the
local `append_data_from_dict_to_xml` and are silently dropped, while a
`str` scalar becomes a child element; the claim says every scalar
produces an element. -/
theorem C5_numeric_scalar_dropped :
    append_data_from_dict_to_xml "image_id" (.int 0)
        (.mk "annotation" none []) =
      .mk "annotation" none [] ∧
    append_data_from_dict_to_xml "iscrowd" (.float (1/2))
        (.mk "annotation" none []) =
      .mk "annotation" none [] ∧
    append_data_from_dict_to_xml "pose" (.str "Left")
        (.mk "annotation" none []) =
      .mk "annotation" none [.mk "pose" (some (.str "Left")) []] :=
  ⟨rfl, rfl, rfl⟩

theorem pascalvocObject_isError (class_mapper : PyDict String ℤ)
    (image_id : ℤ) (element : XmlElem)
    (h : isError (getKekName element) ∨ isError (getKekBox element)) :
    isError (pascalvocObject class_mapper image_id element) := by
  unfold pascalvocObject
  cases hn : getKekName element with
  | error e => exact trivial
  | ok class_name =>
      rcases h with h | h
      · rw [hn] at h
        exact absurd h (by simp [isError])
      · show isError ((Except.ok class_name).bind _)
        simp only [Except.bind]
        cases hm : pyGet? class_mapper class_name with
        | none => exact trivial
        | some class_id =>
            cases hb : getKekBox element with
            | error e => exact trivial
            | ok kek_box =>
                rw [hb] at h
                exact absurd h (by simp [isError])

theorem pascalvocObjects_isError (class_mapper : PyDict String ℤ)
    (image_id : ℤ) (els : List XmlElem) (element : XmlElem)
    (hmem : element ∈ els) (htag : element.tag = "object")
    (h : isError (pascalvocObject class_mapper image_id element)) :
    isError (pascalvocObjects class_mapper image_id els) := by
  induction els with
  | nil => exact absurd hmem (List.not_mem_nil element)
  | cons e rest ih =>
      unfold pascalvocObjects
      rcases List.mem_cons.mp hmem with he | he
      · subst he
        rw [if_pos htag]
        cases ho : pascalvocObject class_mapper image_id element with
        | error err => exact trivial
        | ok kek_object =>
            rw [ho] at h
            exact absurd h (by simp [isError])
      · by_cases ht : e.tag = "object"
        · rw [if_pos ht]
          cases ho : pascalvocObject class_mapper image_id e with
          | error err => exact trivial
          | ok kek_object =>
              show isError ((Except.ok kek_object).bind _)
              simp only [Except.bind]
              cases hr : pascalvocObjects class_mapper image_id rest with
              | error err => exact trivial
              | ok kek_objects =>
                  have := ih he
                  rw [hr] at this
                  exact absurd this (by simp [isError])
        · rw [if_neg ht]
          exact ih he

/-- C7: for every `<object>` element, a missing `<name>`, an empty
`<name>` text, a missing `<bndbox>`, a missing coordinate child, and an
empty (`None`) coordinate text each raise a `ValueError`, and any such
failure aborts the whole object-decoding loop of `pascalvoc2kek` — the
object is never silently skipped. -/
theorem C7_pascalvoc_object_errors (element : XmlElem) :
    (element.findTag "name" = none →
      getKekName element =
        .error (.valueError "at least one object without class name")) ∧
    (∀ name, element.findTag "name" = some name →
      (name.innerText = none ∨ name.innerText = some "") →
      getKekName element =
        .error (.valueError "at least one object with empty name tag")) ∧
    (element.findTag "bndbox" = none →
      getKekBox element =
        .error (.valueError "at least one object without bounding-box")) ∧
    (∀ bndbox, element.findTag "bndbox" = some bndbox →
      (bndbox.findTag "xmin" = none ∨ bndbox.findTag "ymin" = none ∨
        bndbox.findTag "xmax" = none ∨ bndbox.findTag "ymax" = none) →
      getKekBox element =
        .error (.valueError "at least one object without coordinate tag")) ∧
    (∀ bndbox xmin ymin xmax ymax,
      element.findTag "bndbox" = some bndbox →
      bndbox.findTag "xmin" = some xmin →
      bndbox.findTag "ymin" = some ymin →
      bndbox.findTag "xmax" = some xmax →
      bndbox.findTag "ymax" = some ymax →
      (xmin.innerText = none ∨ ymin.innerText = none ∨
        xmax.innerText = none ∨ ymax.innerText = none) →
      getKekBox element =
        .error (.valueError "at least one object with empty coordinate tag")) ∧
    (∀ class_mapper image_id els, element ∈ els → element.tag = "object" →
      (isError (getKekName element) ∨ isError (getKekBox element)) →
      isError (pascalvocObjects class_mapper image_id els)) := by
  refine ⟨?_, ?_, ?_, ?_, ?_, ?_⟩
  · intro h
    unfold getKekName
    rw [h]
  · intro name hfind htext
    unfold getKekName
    rw [hfind]
    rcases htext with h | h <;> simp [h]
  · intro h
    unfold getKekBox
    rw [h]
  · intro bndbox hbnd hmiss
    unfold getKekBox
    rw [hbnd]
    rcases hmiss with h | h | h | h
    · simp only [h]
    · cases hx : bndbox.findTag "xmin" <;> simp only [hx, h]
    · cases hx : bndbox.findTag "xmin" <;>
        cases hy : bndbox.findTag "ymin" <;> simp only [hx, hy, h]
    · cases hx : bndbox.findTag "xmin" <;>
        cases hy : bndbox.findTag "ymin" <;>
          cases hX : bndbox.findTag "xmax" <;> simp only [hx, hy, hX, h]
  · intro bndbox xmin ymin xmax ymax hbnd hx hy hX hY hmiss
    unfold getKekBox
    rw [hbnd]
    simp only [hx, hy, hX, hY]
    rcases hmiss with h | h | h | h
    · simp only [h]
    · cases ht : xmin.innerText <;> simp only [ht, h]
    · cases ht : xmin.innerText <;>
        cases ht2 : ymin.innerText <;> simp only [ht, ht2, h]
    · cases ht : xmin.innerText <;>
        cases ht2 : ymin.innerText <;>
          cases ht3 : xmax.innerText <;> simp only [ht, ht2, ht3, h]
  · intro class_mapper image_id els hmem htag herr
    exact pascalvocObjects_isError class_mapper image_id els element hmem htag
      (pascalvocObject_isError class_mapper image_id element herr)

/-- C7, witness: each error condition evaluated on a concrete
malformed `<object>` element, and the loop aborting on one of them. -/
theorem C7_witness :
    getKekName (.mk "object" [] [] none) =
      .error (.valueError "at least one object without class name") ∧
    getKekName (.mk "object" [] [.mk "name" [] [] none] none) =
      .error (.valueError "at least one object with empty name tag") ∧
    getKekBox (.mk "object" [] [.mk "name" [] [] (some "car")] none) =
      .error (.valueError "at least one object without bounding-box") ∧
    getKekBox (.mk "object" []
        [.mk "bndbox" [] [.mk "xmin" [] [] (some "1")] none] none) =
      .error (.valueError "at least one object without coordinate tag") ∧
    getKekBox (.mk "object" []
        [.mk "bndbox" []
          [.mk "xmin" [] [] (some "1"), .mk "ymin" [] [] (some "2"),
           .mk "xmax" [] [] (some "3"), .mk "ymax" [] [] none] none] none) =
      .error (.valueError "at least one object with empty coordinate tag") ∧
    isError (pascalvocObjects [] 0 [.mk "object" [] [] none]) :=
  ⟨(C7_pascalvoc_object_errors (.mk "object" [] [] none)).1 rfl,
   (C7_pascalvoc_object_errors (.mk "object" [] [.mk "name" [] [] none] none)).2.1
     (.mk "name" [] [] none) rfl (Or.inl rfl),
   (C7_pascalvoc_object_errors
       (.mk "object" [] [.mk "name" [] [] (some "car")] none)).2.2.1 rfl,
   (C7_pascalvoc_object_errors
       (.mk "object" [] [.mk "bndbox" [] [.mk "xmin" [] [] (some "1")] none]
         none)).2.2.2.1
     (.mk "bndbox" [] [.mk "xmin" [] [] (some "1")] none) rfl
     (Or.inr (Or.inl rfl)),
   (C7_pascalvoc_object_errors
       (.mk "object" []
         [.mk "bndbox" []
           [.mk "xmin" [] [] (some "1"), .mk "ymin" [] [] (some "2"),
            .mk "xmax" [] [] (some "3"), .mk "ymax" [] [] none] none]
         none)).2.2.2.2.1
     (.mk "bndbox" []
       [.mk "xmin" [] [] (some "1"), .mk "ymin" [] [] (some "2"),
        .mk "xmax" [] [] (some "3"), .mk "ymax" [] [] none] none)
     (.mk "xmin" [] [] (some "1")) (.mk "ymin" [] [] (some "2"))
     (.mk "xmax" [] [] (some "3")) (.mk "ymax" [] [] none)
     rfl rfl rfl rfl rfl (Or.inr (Or.inr (Or.inr rfl))),
   (C7_pascalvoc_object_errors (.mk "object" [] [] none)).2.2.2.2.2
     [] 0 [.mk "object" [] [] none] (by simp) rfl (Or.inl trivial)⟩

theorem cocoAnnotation_isError_of_lookup (image_id : ℤ)
    (coco_categories : PyDict PyKey Category)
    (annot : PyDict String PyVal) (cid : PyVal)
    (hcid : pyGet? annot "category_id" = some cid)
    (h : isError (cocoCategoryLookup coco_categories cid)) :
    isError (cocoAnnotationToKekObject image_id coco_categories annot) := by
  unfold cocoAnnotationToKekObject
  simp only [hcid]
  cases hcat : cocoCategoryLookup coco_categories cid with
  | error e => exact trivial
  | ok category =>
      rw [hcat] at h
      exact absurd h (by simp [isError])

theorem cocoAnnotations_isError (image_id : ℤ)
    (coco_categories : PyDict PyKey Category)
    (annotations : List (PyDict String PyVal))
    (annot : PyDict String PyVal) (hmem : annot ∈ annotations)
    (h : isError (cocoAnnotationToKekObject image_id coco_categories
      annot)) :
    isError (coco_annotations2kek_objects image_id coco_categories
      annotations) := by
  induction annotations with
  | nil => exact absurd hmem (List.not_mem_nil annot)
  | cons a rest ih =>
      unfold coco_annotations2kek_objects
      rcases List.mem_cons.mp hmem with ha | ha
      · subst ha
        cases ho : cocoAnnotationToKekObject image_id coco_categories
            annot with
        | error e => exact trivial
        | ok kek_object =>
            rw [ho] at h
            exact absurd h (by simp [isError])
      · cases ho : cocoAnnotationToKekObject image_id coco_categories a with
        | error e => exact trivial
        | ok kek_object =>
            show isError ((Except.ok kek_object).bind _)
            simp only [Except.bind]
            cases hr : coco_annotations2kek_objects image_id coco_categories
                rest with
            | error e => exact trivial
            | ok kek_objects =>
                have := ih ha
                rw [hr] at this
                exact absurd this (by simp [isError])

/-- C8: the MS COCO category is first looked up under `category_id` as
given; on a miss the lookup is retried once with the id coerced to
integer; when both attempts miss a `KeyError` propagates through
`coco_annotations2kek_objects` to the caller; and on success the stored
`class_id` equals `int(category_id) - 1`. -/
theorem C8_coco_category_lookup (image_id : ℤ)
    (coco_categories : PyDict PyKey Category)
    (annot : PyDict String PyVal) (cid : PyVal) :
    (∀ k category, keyOfVal cid = some k →
      pyGet? coco_categories k = some category →
      cocoCategoryLookup coco_categories cid = .ok category) ∧
    (∀ k i category, keyOfVal cid = some k →
      pyGet? coco_categories k = none → pyIntOfVal cid = some i →
      pyGet? coco_categories (.int i) = some category →
      cocoCategoryLookup coco_categories cid = .ok category) ∧
    (∀ k i, keyOfVal cid = some k →
      pyGet? coco_categories k = none → pyIntOfVal cid = some i →
      pyGet? coco_categories (.int i) = none →
      cocoCategoryLookup coco_categories cid = .error .keyError) ∧
    (∀ kek_object, pyGet? annot "category_id" = some cid →
      cocoAnnotationToKekObject image_id coco_categories annot =
        .ok kek_object →
      ∃ i, pyIntOfVal cid = some i ∧ kek_object.class_id = i - 1) ∧
    (∀ annotations, annot ∈ annotations →
      pyGet? annot "category_id" = some cid →
      cocoCategoryLookup coco_categories cid = .error .keyError →
      isError (coco_annotations2kek_objects image_id coco_categories
        annotations)) := by
  refine ⟨?_, ?_, ?_, ?_, ?_⟩
  · intro k category hk hget
    unfold cocoCategoryLookup
    simp only [hk, hget]
  · intro k i category hk hget1 hint hget2
    unfold cocoCategoryLookup
    simp only [hk, hget1, hint, hget2]
  · intro k i hk hget1 hint hget2
    unfold cocoCategoryLookup
    simp only [hk, hget1, hint, hget2]
  · intro kek_object hcid hok
    unfold cocoAnnotationToKekObject at hok
    simp only [hcid] at hok
    cases hcat : cocoCategoryLookup coco_categories cid with
    | error e =>
        simp only [hcat] at hok
        exact Except.noConfusion hok
    | ok category =>
        simp only [hcat] at hok
        cases hint : pyIntOfVal cid with
        | none =>
            simp only [hint] at hok
            exact Except.noConfusion hok
        | some i =>
            simp only [hint] at hok
            refine ⟨i, rfl, ?_⟩
            cases hname : pyGet? category "name" with
            | none =>
                simp only [hname] at hok
                exact Except.noConfusion hok
            | some class_name =>
                simp only [hname] at hok
                cases hbb : pyGet? annot "bbox" with
                | none =>
                    simp only [hbb] at hok
                    exact Except.noConfusion hok
                | some bbox_val =>
                    simp only [hbb] at hok
                    cases hbox : cocoBoxOfVal bbox_val with
                    | error e =>
                        simp only [hbox] at hok
                        exact Except.noConfusion hok
                    | ok kek_box =>
                        simp only [hbox, Except.ok.injEq] at hok
                        rw [← hok]
  · intro annotations hmem hcid hlook
    exact cocoAnnotations_isError image_id coco_categories annotations
      annot hmem
      (cocoAnnotation_isError_of_lookup image_id coco_categories annot
        cid hcid (by rw [hlook]; exact trivial))

/-- C8, witness: direct hit, coerced-retry hit, double miss and the
zero-based `class_id` evaluated on a concrete category table keyed by
the string `"2"` and the int `5`. -/
theorem C8_witness :
    cocoCategoryLookup
        [(PyKey.str "2", [("name", PyVal.str "cat")]),
         (PyKey.int 5, [("name", PyVal.str "dog")])] (.str "2") =
      .ok [("name", PyVal.str "cat")] ∧
    cocoCategoryLookup
        [(PyKey.str "2", [("name", PyVal.str "cat")]),
         (PyKey.int 5, [("name", PyVal.str "dog")])] (.str "5") =
      .ok [("name", PyVal.str "dog")] ∧
    cocoCategoryLookup
        [(PyKey.str "2", [("name", PyVal.str "cat")]),
         (PyKey.int 5, [("name", PyVal.str "dog")])] (.str "7") =
      .error .keyError ∧
    (∃ kek_object,
      cocoAnnotationToKekObject 0
          [(PyKey.str "2", [("name", PyVal.str "cat")]),
           (PyKey.int 5, [("name", PyVal.str "dog")])]
          [("category_id", PyVal.str "5"),
           ("bbox", PyVal.list [.int 1, .int 1, .int 2, .int 2])] =
        .ok kek_object ∧
      ∃ i, pyIntOfVal (PyVal.str "5") = some i ∧
        kek_object.class_id = i - 1) ∧
    isError (coco_annotations2kek_objects 0
      [(PyKey.str "2", [("name", PyVal.str "cat")]),
       (PyKey.int 5, [("name", PyVal.str "dog")])]
      [[("category_id", PyVal.str "7"),
        ("bbox", PyVal.list [.int 1, .int 1, .int 2, .int 2])]]) :=
  ⟨(C8_coco_category_lookup 0 _ [] (.str "2")).1 (.str "2") _ rfl rfl,
   (C8_coco_category_lookup 0 _ [] (.str "5")).2.1 (.str "5") 5 _ rfl rfl rfl
     rfl,
   (C8_coco_category_lookup 0 _ [] (.str "7")).2.2.1 (.str "7") 7 rfl rfl rfl
     rfl,
   ⟨_, rfl,
    (C8_coco_category_lookup 0
        [(PyKey.str "2", [("name", PyVal.str "cat")]),
         (PyKey.int 5, [("name", PyVal.str "dog")])]
        [("category_id", PyVal.str "5"),
         ("bbox", PyVal.list [.int 1, .int 1, .int 2, .int 2])]
        (.str "5")).2.2.2.1 _ rfl rfl⟩,
   (C8_coco_category_lookup 0
       [(PyKey.str "2", [("name", PyVal.str "cat")]),
        (PyKey.int 5, [("name", PyVal.str "dog")])]
       [("category_id", PyVal.str "7"),
        ("bbox", PyVal.list [.int 1, .int 1, .int 2, .int 2])]
       (.str "7")).2.2.2.2
     _ (by simp) rfl
     ((C8_coco_category_lookup 0 _ [] (.str "7")).2.2.1 (.str "7") 7 rfl rfl
       rfl rfl)⟩

theorem pyGet?_int_none_of_str_keys {V : Type} (d : PyDict PyKey V)
    (h : ∀ p ∈ d, ∃ s, p.1 = PyKey.str s) (k : ℤ) :
    pyGet? d (.int k) = none := by
  induction d with
  | nil => rfl
  | cons p rest ih =>
      obtain ⟨s, hs⟩ := h p (List.mem_cons_self p rest)
      unfold pyGet?
      rw [hs]
      simp only [reduceCtorEq, if_false]
      exact ih (fun q hq => h q (List.mem_cons_of_mem p hq))

theorem darknetLabels_isError (class_mapper : PyDict PyKey PyVal)
    (image_id : ℤ) (image_shape : ImageShape) (darknet_labels : List String)
    (darknet_label : String) (hmem : darknet_label ∈ darknet_labels)
    (h : isError (darknetLabelToKekObject class_mapper image_id image_shape
      darknet_label)) :
    isError (darknetLabelsToKekObjects class_mapper image_id image_shape
      darknet_labels) := by
  induction darknet_labels with
  | nil => exact absurd hmem (List.not_mem_nil darknet_label)
  | cons l rest ih =>
      unfold darknetLabelsToKekObjects
      rcases List.mem_cons.mp hmem with hl | hl
      · subst hl
        cases ho : darknetLabelToKekObject class_mapper image_id image_shape
            darknet_label with
        | error e => exact trivial
        | ok kek_object =>
            rw [ho] at h
            exact absurd h (by simp [isError])
      · cases ho : darknetLabelToKekObject class_mapper image_id image_shape
            l with
        | error e => exact trivial
        | ok kek_object =>
            show isError ((Except.ok kek_object).bind _)
            simp only [Except.bind]
            cases hr : darknetLabelsToKekObjects class_mapper image_id
                image_shape rest with
            | error e => exact trivial
            | ok kek_objects =>
                have := ih hl
                rw [hr] at this
                exact absurd this (by simp [isError])

/-- C10: `darknet2kek` indexes the class mapper with `int(class_id)`,
so a mapper whose keys are the decimal-string forms of the class ids (a
JSON mapper loaded without key coercion) makes every well-formed label
line raise `KeyError` — even though the corresponding string key is
present — and the whole label-file decode fail. -/
theorem C10_darknet_mapper_needs_int_keys (class_mapper : PyDict PyKey PyVal)
    (image_id : ℤ) (image_shape : ImageShape) (darknet_label : String)
    (box : DarknetBox) (k : ℤ) (class_name : PyVal)
    (hkeys : ∀ p ∈ class_mapper, ∃ s, p.1 = PyKey.str s)
    (hbox : parseDarknetBox (darknetSplitLabel darknet_label).2 = .ok box)
    (hcid : pyInt? (darknetSplitLabel darknet_label).1 = some k)
    (hpresent : pyGet? class_mapper (.str (toString k)) = some class_name) :
    darknetLabelToKekObject class_mapper image_id image_shape darknet_label =
      .error .keyError ∧
    (∀ darknet_labels filename path folder, darknet_label ∈ darknet_labels →
      isError (darknet2kek class_mapper image_id image_shape filename path
        folder darknet_labels)) := by
  have hmain : darknetLabelToKekObject class_mapper image_id image_shape
      darknet_label = .error .keyError := by
    unfold darknetLabelToKekObject
    simp only [hbox, hcid, pyGet?_int_none_of_str_keys class_mapper hkeys k]
  refine ⟨hmain, ?_⟩
  intro darknet_labels filename path folder hmem
  unfold darknet2kek
  have hloop := darknetLabels_isError class_mapper image_id image_shape
    darknet_labels darknet_label hmem (by rw [hmain]; exact trivial)
  cases hl : darknetLabelsToKekObjects class_mapper image_id image_shape
      darknet_labels with
  | error e => exact trivial
  | ok kek_objects =>
      rw [hl] at hloop
      exact absurd hloop (by simp [isError])

/-- C10, witness: the `KeyError` evaluated on the concrete mapper
entry `("0", "car")` (string key) and the label line
`"0 0.35 0.35 0.5 0.5"`. -/
theorem C10_witness :
    darknetLabelToKekObject [(PyKey.str "0", PyVal.str "car")] 0 ⟨100, 100, 3⟩
        "0 0.35 0.35 0.5 0.5" = .error .keyError ∧
    isError (darknet2kek [(PyKey.str "0", PyVal.str "car")] 0 ⟨100, 100, 3⟩
      "img.jpg" "some/path" "folder" ["0 0.35 0.35 0.5 0.5"]) :=
  ⟨(C10_darknet_mapper_needs_int_keys [(PyKey.str "0", PyVal.str "car")] 0
      ⟨100, 100, 3⟩ "0 0.35 0.35 0.5 0.5" _ 0 (PyVal.str "car")
      (by rintro p hp; rw [List.mem_singleton] at hp; exact ⟨"0", by rw [hp]⟩)
      rfl rfl rfl).1,
   (C10_darknet_mapper_needs_int_keys [(PyKey.str "0", PyVal.str "car")] 0
      ⟨100, 100, 3⟩ "0 0.35 0.35 0.5 0.5" _ 0 (PyVal.str "car")
      (by rintro p hp; rw [List.mem_singleton] at hp; exact ⟨"0", by rw [hp]⟩)
      rfl rfl rfl).2 ["0 0.35 0.35 0.5 0.5"] "img.jpg" "some/path" "folder"
     (by simp)⟩
